import Mathlib

/-!
# Passenger: pool garbage collection and the ApplicationPool client stub

A shallow embedding of

* `ext/common/ApplicationPool2/Pool/GarbageCollection.h` (the garbage collector
  of the process pool), and
* `ext/common/ApplicationPool/Client.h` (the client stub of the pool server and
  its `RemoteSession`),

followed by the properties proved about them.

Conventions. `unsigned long long` values are natural numbers and the one
addition and the one multiplication that can wrap are reduced modulo `2^64`.
The mutable C++ objects are passed and returned explicitly. A C++ exception is
a value of `Exception`; a function that can throw returns an `Outcome`.
-/

namespace Passenger

/-! ## Part 1: `Pool/GarbageCollection.h` -/

namespace ApplicationPool2

/-- Wrap-around of `unsigned long long` (and of `unsigned long` on LP64). -/
def u64 (n : Nat) : Nat := n % 2 ^ 64

/-- The fields of `Process` read by the garbage collector. -/
structure Process where
  pid : Nat
  sessions : Nat
  lastUsed : Nat
  deriving DecidableEq, Repr

/-- The fields of `Options` read by the garbage collector;
`maxPreloaderIdleTime` is the value returned by `getMaxPreloaderIdleTime()`
(seconds). -/
structure Options where
  minProcesses : Nat
  maxProcesses : Nat
  maxPreloaderIdleTime : Nat
  deriving DecidableEq, Repr

/-- The preloader handle of a group: the results of `cleanable()` and
`lastUsed()`. -/
structure Spawner where
  cleanable : Bool
  lastUsed : Nat
  deriving DecidableEq, Repr

/-- A group: its three process lists, its options and its spawner. The counters
`enabledCount`, `disablingCount` and `disabledCount` are the lengths of the
lists (the invariant checked by `verifyInvariants`). -/
structure Group where
  name : String
  options : Options
  enabledProcesses : List Process
  disablingProcesses : List Process
  disabledProcesses : List Process
  processesBeingSpawned : Nat
  spawner : Spawner
  deriving DecidableEq, Repr

/-- Counter `enabledCount` of a group. -/
def Group.enabledCount (g : Group) : Nat := g.enabledProcesses.length

/-- Counter `disablingCount` of a group. -/
def Group.disablingCount (g : Group) : Nat := g.disablingProcesses.length

/-- Counter `disabledCount` of a group. -/
def Group.disabledCount (g : Group) : Nat := g.disabledProcesses.length

/-- Modelled from the spec: `Group::getProcessCount()` is declared in `Group.h`,
which is not among the sources. Every process of a group is in exactly one of
the three lists enabled, disabling, disabled; the process count of the group is
the sum of the three counters. -/
def Group.getProcessCount (g : Group) : Nat :=
  g.enabledCount + g.disablingCount + g.disabledCount

/-- A `Callback` pushed on `state.actions`: the shutdown closure of a detached
process, or the cleanup of a group's spawner. Each records the group's name. -/
inductive Action where
  | detach (group : String) (process : Process)
  | cleanupSpawner (group : String)
  deriving DecidableEq, Repr

/-- The C++ `struct GarbageCollectorState`. -/
structure GarbageCollectorState where
  now : Nat
  nextGcRunTime : Nat
  actions : List Action
  deriving DecidableEq, Repr

/-- Modelled from the spec: `Group::detach(process, actions)` is defined in
`Group.h`, which is not among the sources. It removes the worker from whichever
list holds it (which decrements the counter) and pushes a shutdown closure onto
`actions`. -/
def Group.detach (g : Group) (process : Process) (actions : List Action) :
    Group × List Action :=
  let g1 : Group :=
    if process ∈ g.enabledProcesses then
      { g with enabledProcesses := g.enabledProcesses.erase process }
    else if process ∈ g.disablingProcesses then
      { g with disablingProcesses := g.disablingProcesses.erase process }
    else
      { g with disabledProcesses := g.disabledProcesses.erase process }
  (g1, actions ++ [Action.detach g.name process])

/-- Modelled from the spec: `Group::cleanupSpawner(actions)` is defined in
`Group.h`, which is not among the sources. It schedules the shutdown of the
preloader process. -/
def Group.cleanupSpawner (g : Group) (actions : List Action) : List Action :=
  actions ++ [Action.cleanupSpawner g.name]

/-- `maybeUpdateNextGcRuntime` (lines 46-50). -/
def maybeUpdateNextGcRuntime (state : GarbageCollectorState) (candidate : Nat) :
    GarbageCollectorState :=
  if state.nextGcRunTime = 0 ∨ candidate < state.nextGcRunTime then
    { state with nextGcRunTime := candidate }
  else
    state

/-- The local `processGcTime` of `checkWhetherProcessCanBeGarbageCollected`:
`process->lastUsed + maxIdleTime` in `unsigned long long`. -/
def processGcTime (maxIdleTime : Nat) (process : Process) : Nat :=
  u64 (process.lastUsed + maxIdleTime)

/-- `checkWhetherProcessCanBeGarbageCollected` (lines 52-68). `output` is the
list `processesToGc` of the caller. The `assert(maxIdleTime > 0)` is
guaranteed by the guard of the only caller chain, `realGarbageCollect`. -/
def checkWhetherProcessCanBeGarbageCollected (maxIdleTime : Nat)
    (state : GarbageCollectorState) (group : Group) (process : Process)
    (output : List Process) : GarbageCollectorState × List Process :=
  if process.sessions = 0
      ∧ state.now ≥ processGcTime maxIdleTime process
      ∧ group.getProcessCount > group.options.minProcesses then
    (state, output ++ [process])
  else
    (maybeUpdateNextGcRuntime state (processGcTime maxIdleTime process), output)

/-- The first loop of `garbageCollectProcessesInGroup` (lines 77-81): every
enabled process is checked against the unchanged group. -/
def collectProcessesToGc (maxIdleTime : Nat) (group : Group) :
    List Process → GarbageCollectorState × List Process →
      GarbageCollectorState × List Process
  | [], acc => acc
  | process :: rest, acc =>
    collectProcessesToGc maxIdleTime group rest
      (checkWhetherProcessCanBeGarbageCollected maxIdleTime acc.1 group process acc.2)

/-- The second loop of `garbageCollectProcessesInGroup` (lines 83-89): every
process of `processesToGc` is passed to `group->detach`. -/
def detachProcesses : List Process → Group × List Action → Group × List Action
  | [], acc => acc
  | process :: rest, acc => detachProcesses rest (acc.1.detach process acc.2)

/-- `garbageCollectProcessesInGroup` (lines 70-90). -/
def garbageCollectProcessesInGroup (maxIdleTime : Nat)
    (state : GarbageCollectorState) (group : Group) :
    GarbageCollectorState × Group :=
  let checked := collectProcessesToGc maxIdleTime group group.enabledProcesses (state, [])
  let detached := detachProcesses checked.2 (group, checked.1.actions)
  ({ checked.1 with actions := detached.2 }, detached.1)

/-- The local `spawnerGcTime` of `maybeCleanPreloader`:
`lastUsed() + getMaxPreloaderIdleTime() * 1000000`, the product in
`unsigned long`, the sum in `unsigned long long`. -/
def spawnerGcTime (group : Group) : Nat :=
  u64 (group.spawner.lastUsed + u64 (group.options.maxPreloaderIdleTime * 1000000))

/-- `maybeCleanPreloader` (lines 92-104). -/
def maybeCleanPreloader (state : GarbageCollectorState) (group : Group) :
    GarbageCollectorState :=
  if group.spawner.cleanable = true ∧ group.options.maxPreloaderIdleTime ≠ 0 then
    if state.now ≥ spawnerGcTime group then
      { state with actions := group.cleanupSpawner state.actions }
    else
      maybeUpdateNextGcRuntime state (spawnerGcTime group)
  else
    state

/-- A supergroup: its list of groups. -/
structure SuperGroup where
  name : String
  groups : List Group
  deriving DecidableEq, Repr

/-- The pool: `maxIdleTime` (microseconds) and the supergroups in the order in
which `SuperGroupMap::ConstIterator` visits them. -/
structure Pool where
  maxIdleTime : Nat
  superGroups : List SuperGroup
  deriving DecidableEq, Repr

/-- The body of the `for` loop over the groups of one supergroup
(lines 126-138) for one group. -/
def collectGroup (maxIdleTime : Nat) (state : GarbageCollectorState) (group : Group) :
    GarbageCollectorState × Group :=
  let r : GarbageCollectorState × Group :=
    if maxIdleTime > 0 then
      garbageCollectProcessesInGroup maxIdleTime state group
    else
      (state, group)
  (maybeCleanPreloader r.1 r.2, r.2)

/-- The `for` loop over the groups of one supergroup (lines 126-138). -/
def collectGroups (maxIdleTime : Nat) :
    List Group → GarbageCollectorState → GarbageCollectorState × List Group
  | [], state => (state, [])
  | group :: rest, state =>
    let r := collectGroup maxIdleTime state group
    let rs := collectGroups maxIdleTime rest r.1
    (rs.1, r.2 :: rs.2)

/-- The `while` loop over the supergroups (lines 119-142). -/
def collectSuperGroups (maxIdleTime : Nat) :
    List SuperGroup → GarbageCollectorState → GarbageCollectorState × List SuperGroup
  | [], state => (state, [])
  | superGroup :: rest, state =>
    let r := collectGroups maxIdleTime superGroup.groups state
    let rs := collectSuperGroups maxIdleTime rest r.1
    (rs.1, { superGroup with groups := r.2 } :: rs.2)

/-- What one run of `realGarbageCollect` leaves behind: the pool, the actions
handed to `runAllActions`, the value of `nextGcRunTime` and the returned
`sleepTime`. -/
structure GcRun where
  pool : Pool
  actions : List Action
  nextGcRunTime : Nat
  sleepTime : Nat
  deriving DecidableEq, Repr

/-- `realGarbageCollect` (lines 106-166); `now` is the value read from
`SystemTime::getUsec()`. -/
def realGarbageCollect (pool : Pool) (now : Nat) : GcRun :=
  let state : GarbageCollectorState := { now := now, nextGcRunTime := 0, actions := [] }
  let r := collectSuperGroups pool.maxIdleTime pool.superGroups state
  let sleepTime : Nat :=
    if r.1.nextGcRunTime = 0 ∨ r.1.nextGcRunTime ≤ r.1.now then
      if pool.maxIdleTime = 0 then 10 * 60 * 1000000 else pool.maxIdleTime
    else
      r.1.nextGcRunTime - r.1.now
  { pool := { pool with superGroups := r.2 }
    actions := r.1.actions
    nextGcRunTime := r.1.nextGcRunTime
    sleepTime := sleepTime }

/-- The processes that a list of actions detaches, with the name of their
group. -/
def detachedBy : List Action → List (String × Process)
  | [] => []
  | Action.detach g p :: rest => (g, p) :: detachedBy rest
  | Action.cleanupSpawner _ :: rest => detachedBy rest

/-- The names of the groups whose spawner a list of actions cleans up. -/
def cleanedBy : List Action → List String
  | [] => []
  | Action.detach _ _ :: rest => cleanedBy rest
  | Action.cleanupSpawner g :: rest => g :: cleanedBy rest

/-- All groups of a pool, in the order of the walk. -/
def Pool.allGroups (pool : Pool) : List Group :=
  pool.superGroups.flatMap SuperGroup.groups

/-- The test of `checkWhetherProcessCanBeGarbageCollected` (lines 57-59) at
time `now`. -/
def canBeGarbageCollected (maxIdleTime now : Nat) (group : Group) (process : Process) :
    Bool :=
  decide (process.sessions = 0
    ∧ now ≥ processGcTime maxIdleTime process
    ∧ group.getProcessCount > group.options.minProcesses)

/-- The test of `maybeCleanPreloader` (lines 93 and 97) at time `now`. -/
def preloaderIsCleaned (now : Nat) (group : Group) : Bool :=
  decide ((group.spawner.cleanable = true ∧ group.options.maxPreloaderIdleTime ≠ 0)
    ∧ now ≥ spawnerGcTime group)

/-- The actions that one tick pushes for one group: a detach per collectable
enabled process when `maxIdleTime > 0`, then the cleanup of the spawner. -/
def groupActions (maxIdleTime now : Nat) (group : Group) : List Action :=
  (if maxIdleTime > 0 then
    (group.enabledProcesses.filter (canBeGarbageCollected maxIdleTime now group)).map
      (Action.detach group.name)
   else [])
  ++ (if preloaderIsCleaned now group = true then [Action.cleanupSpawner group.name] else [])

/-! ### Concrete pools -/

/-- A group with one idle enabled worker and one disabled worker, and a floor of
one process. -/
def mixedGroup : Group :=
  { name := "app"
    options := { minProcesses := 1, maxProcesses := 4, maxPreloaderIdleTime := 0 }
    enabledProcesses := [{ pid := 1, sessions := 0, lastUsed := 0 }]
    disablingProcesses := []
    disabledProcesses := [{ pid := 2, sessions := 0, lastUsed := 0 }]
    processesBeingSpawned := 0
    spawner := { cleanable := false, lastUsed := 0 } }

/-- A pool holding `mixedGroup`, with `maxIdleTime` of 10 microseconds. -/
def mixedPool : Pool :=
  { maxIdleTime := 10, superGroups := [{ name := "app", groups := [mixedGroup] }] }

/-- Scenario S4: `minProcesses = 1`, `maxProcesses = 3`, three enabled workers,
all without sessions and last used at time 0. -/
def s4Group : Group :=
  { name := "a"
    options := { minProcesses := 1, maxProcesses := 3, maxPreloaderIdleTime := 0 }
    enabledProcesses :=
      [{ pid := 1, sessions := 0, lastUsed := 0 },
       { pid := 2, sessions := 0, lastUsed := 0 },
       { pid := 3, sessions := 0, lastUsed := 0 }]
    disablingProcesses := []
    disabledProcesses := []
    processesBeingSpawned := 0
    spawner := { cleanable := false, lastUsed := 0 } }

/-- Scenario S4: the pool, with `maxIdleTime = 1_000_000`. -/
def s4Pool : Pool :=
  { maxIdleTime := 1000000, superGroups := [{ name := "a", groups := [s4Group] }] }

/-- A group whose preloader is cleanable and whose `maxPreloaderIdleTime` is 0. -/
def zeroPreloaderGroup : Group :=
  { name := "p"
    options := { minProcesses := 0, maxProcesses := 2, maxPreloaderIdleTime := 0 }
    enabledProcesses := []
    disablingProcesses := []
    disabledProcesses := []
    processesBeingSpawned := 0
    spawner := { cleanable := true, lastUsed := 0 } }

/-- A pool with `maxIdleTime = 0` holding `zeroPreloaderGroup`. -/
def zeroPreloaderPool : Pool :=
  { maxIdleTime := 0, superGroups := [{ name := "p", groups := [zeroPreloaderGroup] }] }

/-- A group whose preloader is cleanable, was last used at time 0 and may idle
for 2 seconds; one enabled worker that is idle. -/
def preloaderGroup : Group :=
  { name := "q"
    options := { minProcesses := 0, maxProcesses := 2, maxPreloaderIdleTime := 2 }
    enabledProcesses := [{ pid := 7, sessions := 0, lastUsed := 0 }]
    disablingProcesses := []
    disabledProcesses := []
    processesBeingSpawned := 0
    spawner := { cleanable := true, lastUsed := 0 } }

/-- A pool with `maxIdleTime = 0` holding `preloaderGroup`. -/
def preloaderPool : Pool :=
  { maxIdleTime := 0, superGroups := [{ name := "q", groups := [preloaderGroup] }] }

/-- A fixed-size group (`minProcesses = maxProcesses = 1`) with one idle enabled
worker and one disabled worker. -/
def fixedMixedGroup : Group :=
  { name := "f"
    options := { minProcesses := 1, maxProcesses := 1, maxPreloaderIdleTime := 0 }
    enabledProcesses := [{ pid := 1, sessions := 0, lastUsed := 0 }]
    disablingProcesses := []
    disabledProcesses := [{ pid := 2, sessions := 0, lastUsed := 0 }]
    processesBeingSpawned := 0
    spawner := { cleanable := false, lastUsed := 0 } }

/-- A pool holding `fixedMixedGroup`. -/
def fixedMixedPool : Pool :=
  { maxIdleTime := 10, superGroups := [{ name := "f", groups := [fixedMixedGroup] }] }

/-- A fixed-size group (`minProcesses = maxProcesses = 2`) with two idle enabled
workers and no other process. -/
def fixedGroup : Group :=
  { name := "f"
    options := { minProcesses := 2, maxProcesses := 2, maxPreloaderIdleTime := 0 }
    enabledProcesses :=
      [{ pid := 1, sessions := 0, lastUsed := 0 }, { pid := 2, sessions := 0, lastUsed := 0 }]
    disablingProcesses := []
    disabledProcesses := []
    processesBeingSpawned := 0
    spawner := { cleanable := false, lastUsed := 0 } }

/-- A pool holding `fixedGroup`. -/
def fixedPool : Pool :=
  { maxIdleTime := 10, superGroups := [{ name := "f", groups := [fixedGroup] }] }

/-- A group whose preloader is cleanable, was last used at time 0 and has
`maxPreloaderIdleTime == 0`, with no worker. -/
def idlePreloaderGroup : Group :=
  { name := "z"
    options := { minProcesses := 0, maxProcesses := 3, maxPreloaderIdleTime := 0 }
    enabledProcesses := []
    disablingProcesses := []
    disabledProcesses := []
    processesBeingSpawned := 0
    spawner := { cleanable := true, lastUsed := 0 } }

/-- A pool with `maxIdleTime` of one second holding `idlePreloaderGroup`. -/
def idlePreloaderPool : Pool :=
  { maxIdleTime := 1000000, superGroups := [{ name := "z", groups := [idlePreloaderGroup] }] }

/-! ### The next run of the garbage collector -/

/-- The value that `maybeUpdateNextGcRuntime` (lines 46-50) leaves in
`state.nextGcRunTime`, given the value before and the candidate. -/
def updateNext (nextGcRunTime candidate : Nat) : Nat :=
  if nextGcRunTime = 0 ∨ candidate < nextGcRunTime then candidate else nextGcRunTime

/-- The `else` branch of `maybeCleanPreloader` (line 101) is taken at time
`now`: the preloader is a candidate for a later run. -/
def preloaderIsCandidate (now : Nat) (group : Group) : Bool :=
  decide ((group.spawner.cleanable = true ∧ group.options.maxPreloaderIdleTime ≠ 0)
    ∧ ¬ now ≥ spawnerGcTime group)

/-- The `processGcTime` of the enabled processes of a group that one tick
retains, that is, does not pass to `detach`, in the order of the walk. -/
def retainedGcTimes (maxIdleTime now : Nat) (group : Group) : List Nat :=
  (group.enabledProcesses.filter
    (fun p => !canBeGarbageCollected maxIdleTime now group p)).map (processGcTime maxIdleTime)

/-- The candidates that one tick passes to `maybeUpdateNextGcRuntime` for one
group, in order: the `processGcTime` of every retained enabled process when
`maxIdleTime > 0`, then the `spawnerGcTime` of a preloader that is a
candidate. -/
def groupCandidates (maxIdleTime now : Nat) (group : Group) : List Nat :=
  (if maxIdleTime > 0 then retainedGcTimes maxIdleTime now group else [])
  ++ (if preloaderIsCandidate now group = true then [spawnerGcTime group] else [])

/-- The `processGcTime` of all retained enabled processes of the pool. -/
def Pool.retainedCandidates (pool : Pool) (now : Nat) : List Nat :=
  pool.allGroups.flatMap (retainedGcTimes pool.maxIdleTime now)

/-- A group with a worker that has a session open and was last used at time 0,
and an idle worker last used at time 95; its preloader is not cleanable. -/
def busyAndFreshGroup : Group :=
  { name := "b"
    options := { minProcesses := 0, maxProcesses := 3, maxPreloaderIdleTime := 0 }
    enabledProcesses :=
      [{ pid := 1, sessions := 1, lastUsed := 0 }, { pid := 2, sessions := 0, lastUsed := 95 }]
    disablingProcesses := []
    disabledProcesses := []
    processesBeingSpawned := 0
    spawner := { cleanable := false, lastUsed := 0 } }

/-- A pool with `maxIdleTime` of 10 microseconds holding `busyAndFreshGroup`. -/
def busyAndFreshPool : Pool :=
  { maxIdleTime := 10, superGroups := [{ name := "b", groups := [busyAndFreshGroup] }] }

/-- A group with two idle workers, last used at times 95 and 93; its preloader
is not cleanable. -/
def freshGroup : Group :=
  { name := "n"
    options := { minProcesses := 0, maxProcesses := 3, maxPreloaderIdleTime := 0 }
    enabledProcesses :=
      [{ pid := 1, sessions := 0, lastUsed := 95 }, { pid := 2, sessions := 0, lastUsed := 93 }]
    disablingProcesses := []
    disabledProcesses := []
    processesBeingSpawned := 0
    spawner := { cleanable := false, lastUsed := 0 } }

/-- A pool with `maxIdleTime` of 10 microseconds holding `freshGroup`. -/
def freshPool : Pool :=
  { maxIdleTime := 10, superGroups := [{ name := "n", groups := [freshGroup] }] }

end ApplicationPool2

/-! ## Part 2: `ApplicationPool/Client.h` -/

namespace ApplicationPool

/-- The exception classes that the client stub throws or lets through.
A `SystemException` carries its brief message (`brief()`) and its error code
(`code()`). A `SpawnException` carries its message and, when the server sent
one, the error page. -/
inductive Exception where
  | SystemException (brief : String) (code : Int)
  | IOException (message : String)
  | SecurityException (message : String)
  | SpawnException (message : String) (errorPage : Option String)
  | BusyException (message : String)
  | RuntimeException (message : String)
  | TimeoutException (message : String)
  | thread_interrupted
  deriving DecidableEq, Repr

/-- How a call ends: it returns a value, it throws, its behaviour is undefined
(`operator[]` beyond the end of a `vector`), or the recursion bound of the model
was reached before the call ended. -/
inductive Outcome (α : Type) where
  | returns (value : α)
  | throws (e : Exception)
  | undefined
  | outOfFuel
  deriving DecidableEq, Repr

/-- The failures of a channel operation: the message channel raises a
`SystemException` (a failed system call), an `IOException` (a malformed frame),
a `TimeoutException` or `boost::thread_interrupted`; it raises none of the
exceptions of the pool protocol. -/
inductive ChannelFault where
  | systemException (brief : String) (code : Int)
  | ioException (message : String)
  | timeoutException (message : String)
  | interrupted
  deriving DecidableEq, Repr

/-- The exception that a channel failure raises. -/
def ChannelFault.toException : ChannelFault → Exception
  | ChannelFault.systemException brief code => Exception.SystemException brief code
  | ChannelFault.ioException message => Exception.IOException message
  | ChannelFault.timeoutException message => Exception.TimeoutException message
  | ChannelFault.interrupted => Exception.thread_interrupted

/-- What the peer has put on the socket, in order: a vector message, a scalar,
a file descriptor, or a failure of the next read operation. The end of the list
is the end of the stream. -/
inductive Incoming where
  | message (args : List String)
  | scalar (data : String)
  | fileDescriptor (fd : Int)
  | fault (f : ChannelFault)
  deriving DecidableEq, Repr

/-- A call of a channel operation, as recorded in the trace of the channel. -/
inductive Op where
  | write (args : List String)
  | writeScalar (data : String)
  | read
  | readScalar
  | readFileDescriptor
  | close
  deriving DecidableEq, Repr

/-- Modelled from the spec: `MessageChannel` (`MessageChannel.h`) is not among
the sources. A channel is a file descriptor (`-1` when closed), the items that
its reads will meet, the outcome of each of its coming writes (`none`, or the
end of the list: the write succeeds) and the trace of the operations called on
it so far. -/
structure MessageChannel where
  fd : Int
  incoming : List Incoming
  writeFaults : List (Option ChannelFault)
  trace : List Op
  deriving DecidableEq, Repr

/-- Computations on the shared channel: `data->channel` is read and updated. -/
abbrev ChannelM (α : Type) : Type := MessageChannel → Outcome α × MessageChannel

/-- Sequencing of statements: what follows a statement runs only if the
statement returns. -/
def ChannelM.bind {α β : Type} (m : ChannelM α) (f : α → ChannelM β) : ChannelM β :=
  fun ch =>
    match m ch with
    | (Outcome.returns a, ch1) => f a ch1
    | (Outcome.throws e, ch1) => (Outcome.throws e, ch1)
    | (Outcome.undefined, ch1) => (Outcome.undefined, ch1)
    | (Outcome.outOfFuel, ch1) => (Outcome.outOfFuel, ch1)

instance : Monad ChannelM where
  pure a := fun ch => (Outcome.returns a, ch)
  bind := ChannelM.bind

/-- A `throw` statement. -/
def raise {α : Type} (e : Exception) : ChannelM α := fun ch => (Outcome.throws e, ch)

/-- Undefined behaviour. -/
def undefinedBehaviour {α : Type} : ChannelM α := fun ch => (Outcome.undefined, ch)

/-- A `try` block with its handlers: `handler e` is the code of the `catch`
clause that matches `e`. -/
def tryCatch {α : Type} (body : ChannelM α) (handler : Exception → ChannelM α) :
    ChannelM α :=
  fun ch =>
    match body ch with
    | (Outcome.throws e, ch1) => handler e ch1
    | r => r

/-- `args[i]` on a `vector<string>`: undefined beyond the end. -/
def subscript (args : List String) (i : Nat) : ChannelM String :=
  match args[i]? with
  | some s => pure s
  | none => undefinedBehaviour

/-- The error code `EBADF`. -/
def EBADF : Int := 9

/-- The error code `EIO`. -/
def EIO : Int := 5

/-- Modelled from the spec: `MessageChannel::connected()`. -/
def MessageChannel.connected (ch : MessageChannel) : Bool := decide (ch.fd ≠ -1)

/-- Modelled from the spec: `MessageChannel::close()`; the descriptor becomes
`-1`. -/
def MessageChannel.close (ch : MessageChannel) : MessageChannel :=
  if ch.fd ≠ -1 then { ch with fd := -1, trace := ch.trace ++ [Op.close] } else ch

/-- The outcome of the next write on a channel, and the channel after it. -/
def MessageChannel.nextWrite (ch : MessageChannel) (op : Op) : Outcome Unit × MessageChannel :=
  if ch.fd = -1 then
    (Outcome.throws (Exception.SystemException "write() failed" EBADF),
      { ch with trace := ch.trace ++ [op] })
  else
    match ch.writeFaults with
    | [] => (Outcome.returns (), { ch with trace := ch.trace ++ [op] })
    | none :: rest =>
      (Outcome.returns (), { ch with writeFaults := rest, trace := ch.trace ++ [op] })
    | some f :: rest =>
      (Outcome.throws f.toException,
        { ch with writeFaults := rest, trace := ch.trace ++ [op] })

/-- Modelled from the spec: `MessageChannel::write`, the atomic write of one
vector message; on a closed channel the system call fails. -/
def write (args : List String) : ChannelM Unit := fun ch => ch.nextWrite (Op.write args)

/-- Modelled from the spec: `MessageChannel::writeScalar`. -/
def writeScalar (data : String) : ChannelM Unit := fun ch =>
  ch.nextWrite (Op.writeScalar data)

/-- Modelled from the spec: `MessageChannel::read(args)`: `some args` for
`true`, `none` for `false` (the end of the stream); anything else on the socket
is a malformed frame. -/
def read : ChannelM (Option (List String)) := fun ch =>
  if ch.fd = -1 then
    (Outcome.throws (Exception.SystemException "read() failed" EBADF),
      { ch with trace := ch.trace ++ [Op.read] })
  else
    match ch.incoming with
    | [] => (Outcome.returns none, { ch with trace := ch.trace ++ [Op.read] })
    | Incoming.message args :: rest =>
      (Outcome.returns (some args), { ch with incoming := rest, trace := ch.trace ++ [Op.read] })
    | Incoming.fault f :: rest =>
      (Outcome.throws f.toException, { ch with incoming := rest, trace := ch.trace ++ [Op.read] })
    | _ :: rest =>
      (Outcome.throws (Exception.IOException "malformed message"),
        { ch with incoming := rest, trace := ch.trace ++ [Op.read] })

/-- Modelled from the spec: `MessageChannel::readScalar(output)`: `some data`
for `true`, `none` for `false` (the end of the stream). -/
def readScalar : ChannelM (Option String) := fun ch =>
  if ch.fd = -1 then
    (Outcome.throws (Exception.SystemException "read() failed" EBADF),
      { ch with trace := ch.trace ++ [Op.readScalar] })
  else
    match ch.incoming with
    | [] => (Outcome.returns none, { ch with trace := ch.trace ++ [Op.readScalar] })
    | Incoming.scalar data :: rest =>
      (Outcome.returns (some data),
        { ch with incoming := rest, trace := ch.trace ++ [Op.readScalar] })
    | Incoming.fault f :: rest =>
      (Outcome.throws f.toException,
        { ch with incoming := rest, trace := ch.trace ++ [Op.readScalar] })
    | _ :: rest =>
      (Outcome.throws (Exception.IOException "malformed scalar"),
        { ch with incoming := rest, trace := ch.trace ++ [Op.readScalar] })

/-- Modelled from the spec: `MessageChannel::readFileDescriptor()`: one file
descriptor per call; it fails when the stream holds none. -/
def readFileDescriptor : ChannelM Int := fun ch =>
  if ch.fd = -1 then
    (Outcome.throws (Exception.SystemException "recvmsg() failed" EBADF),
      { ch with trace := ch.trace ++ [Op.readFileDescriptor] })
  else
    match ch.incoming with
    | [] =>
      (Outcome.throws (Exception.IOException "No valid file descriptor received."),
        { ch with trace := ch.trace ++ [Op.readFileDescriptor] })
    | Incoming.fileDescriptor fd :: rest =>
      (Outcome.returns fd,
        { ch with incoming := rest, trace := ch.trace ++ [Op.readFileDescriptor] })
    | Incoming.fault f :: rest =>
      (Outcome.throws f.toException,
        { ch with incoming := rest, trace := ch.trace ++ [Op.readFileDescriptor] })
    | _ :: rest =>
      (Outcome.throws (Exception.IOException "No valid file descriptor received."),
        { ch with incoming := rest, trace := ch.trace ++ [Op.readFileDescriptor] })

/-- `SharedData::disconnect` (lines 90-94). -/
def disconnect : ChannelM Unit := fun ch => (Outcome.returns (), ch.close)

/-- The value of a run of decimal digits, most significant first. -/
def digitsValue : List Char → Nat → Nat
  | [], acc => acc
  | c :: rest, acc =>
    if c.isDigit then digitsValue rest (acc * 10 + (c.toNat - 48)) else acc

/-- The C library's `isspace` in the C locale: space, `\t`, `\n`, `\v`, `\f`
and `\r`. -/
def isspace (c : Char) : Bool :=
  c = ' ' || c = '\t' || c = '\n' || c = '\x0b' || c = '\x0c' || c = '\r'

/-- The number that a decimal numeral denotes, before any bound: leading
`isspace` characters, an optional sign, then the longest run of digits; 0 when
there is none. -/
def decimalValue (s : String) : Int :=
  match s.toList.dropWhile isspace with
  | '-' :: rest => - (digitsValue rest 0 : Int)
  | '+' :: rest => (digitsValue rest 0 : Int)
  | cs => (digitsValue cs 0 : Int)

/-- The conversion of an integer to `int` (and to `pid_t`, which is `int`):
the value modulo `2^32`, in two's complement. -/
def toInt32 (i : Int) : Int := (i + 2 ^ 31) % 2 ^ 32 - 2 ^ 31

/-- The C library's `atol`, as called through `Utils.h`, that is
`strtol(s, NULL, 10)`: the value of the numeral as a 64-bit `long`, `LONG_MAX`
or `LONG_MIN` when it is out of range. -/
def atol (s : String) : Int :=
  if decimalValue s > 2 ^ 63 - 1 then 2 ^ 63 - 1
  else if decimalValue s < - 2 ^ 63 then - 2 ^ 63
  else decimalValue s

/-- The C library's `atoi`, also as called through `Utils.h`, that is
`(int) strtol(s, NULL, 10)`: the `long` of `atol` converted to `int`. -/
def atoi (s : String) : Int := toInt32 (atol s)

/-- The conversion of an `int` to `unsigned int`. -/
def toUnsigned (i : Int) : Nat := (i % 2 ^ 32).toNat

/-! ### `RemoteSession` -/

/-- The fields of `Client::RemoteSession` other than `data`, the channel that
the session shares with the client and that is passed to the operations that
use it. -/
structure RemoteSession where
  pid : Int
  id : Int
  fd : Int
  deriving DecidableEq, Repr

/-- `RemoteSession::getStream` (lines 122-124). -/
def RemoteSession.getStream (s : RemoteSession) : Int := s.fd

/-- Modelled from the spec: `oxt::syscalls::close` (`oxt/system_calls.hpp`) is
not among the sources. It is an interruptible system call: it calls `close(2)`
and returns 0, or returns -1 with `errno` set, or, when the call is cut short
by an interruption of the thread, throws `boost::thread_interrupted`. -/
inductive CloseResult where
  | success
  | failure (errno : Int)
  | interrupted
  deriving DecidableEq, Repr

/-- `RemoteSession::closeStream` (lines 154-168). `result` is the outcome of
`syscalls::close(fd)`, should it be called. `closed` lists the descriptors on
which `close(2)` has been called. When `syscalls::close` throws, line 157 is
not reached and `fd` keeps its value. -/
def RemoteSession.closeStream (s : RemoteSession) (result : CloseResult)
    (closed : List Int) : Outcome Unit × RemoteSession × List Int :=
  if s.fd ≠ -1 then
    match result with
    | CloseResult.interrupted =>
      (Outcome.throws Exception.thread_interrupted, s, closed ++ [s.fd])
    | CloseResult.success => (Outcome.returns (), { s with fd := -1 }, closed ++ [s.fd])
    | CloseResult.failure errno =>
      if errno = EIO then
        (Outcome.throws
            (Exception.SystemException "A write operation on the session stream failed" errno),
          { s with fd := -1 }, closed ++ [s.fd])
      else
        (Outcome.throws (Exception.SystemException "Cannot close the session stream" errno),
          { s with fd := -1 }, closed ++ [s.fd])
  else
    (Outcome.returns (), s, closed)

/-- `RemoteSession::discardStream` (lines 170-172). -/
def RemoteSession.discardStream (s : RemoteSession) : RemoteSession := { s with fd := -1 }

/-- The destructor `RemoteSession::~RemoteSession` (lines 117-120) on the
shared channel `ch`: an exception of `closeStream` or of the write leaves the
destructor. -/
def RemoteSession.destructor (s : RemoteSession) (result : CloseResult)
    (closed : List Int) (ch : MessageChannel) :
    Outcome Unit × RemoteSession × List Int × MessageChannel :=
  match s.closeStream result closed with
  | (Outcome.returns _, s1, closed1) =>
    let w := write ["close", toString s.id] ch
    (w.1, s1, closed1, w.2)
  | (Outcome.throws e, s1, closed1) => (Outcome.throws e, s1, closed1, ch)
  | (Outcome.undefined, s1, closed1) => (Outcome.undefined, s1, closed1, ch)
  | (Outcome.outOfFuel, s1, closed1) => (Outcome.outOfFuel, s1, closed1, ch)

/-- A call on the stream of a session, with the outcome that `syscalls::close`
would have. -/
inductive StreamCall where
  | closeStream (result : CloseResult)
  | discardStream
  deriving DecidableEq, Repr

/-- The call is a `closeStream` whose `syscalls::close` is interrupted. -/
def StreamCall.isInterrupted : StreamCall → Bool
  | StreamCall.closeStream CloseResult.interrupted => true
  | _ => false

/-- One call on the stream of a session; the session and the descriptors closed
so far are threaded through. The first component tells whether the call
raised. -/
def RemoteSession.call (s : RemoteSession) (closed : List Int) :
    StreamCall → Outcome Unit × RemoteSession × List Int
  | StreamCall.closeStream result => s.closeStream result closed
  | StreamCall.discardStream => (Outcome.returns (), s.discardStream, closed)

/-- A sequence of calls on the stream of a session, each continuing from the
state that the one before left, whether it raised or not. -/
def RemoteSession.calls (s : RemoteSession) (closed : List Int) :
    List StreamCall → RemoteSession × List Int
  | [] => (s, closed)
  | c :: rest => RemoteSession.calls (s.call closed c).2.1 (s.call closed c).2.2 rest

/-! ### `Client` -/

/-- The fields of `PoolOptions` used by `Client::get`: the result of
`toVector(args, false)`, and `environmentVariables` (`none` for a null
pointer) with the result of `serializeEnvironmentVariables()`. -/
structure PoolOptions where
  toVector : List String
  environmentVariables : Option String
  deriving DecidableEq, Repr

/-- The client stub: `data` is `none` until `connect` has been called. -/
structure Client where
  data : Option MessageChannel
  deriving DecidableEq, Repr

/-- `Client::sendUsername` (lines 185-187). -/
def sendUsername (username : String) : ChannelM Unit := writeScalar username

/-- `Client::sendPassword` (lines 189-191). -/
def sendPassword (userSuppliedPassword : String) : ChannelM Unit :=
  writeScalar userSuppliedPassword

/-- `Client::authenticate` (lines 201-215). -/
def authenticate (username userSuppliedPassword : String) : ChannelM Unit := do
  sendUsername username
  sendPassword userSuppliedPassword
  match (← read) with
  | none =>
    raise (Exception.IOException
      "The ApplicationPool server did not send an authentication response.")
  | some args =>
    if args.length ≠ 1 then
      raise (Exception.IOException
        "The authentication response that the ApplicationPool server sent is not valid.")
    else do
      let a0 ← subscript args 0
      if a0 ≠ "ok" then
        raise (Exception.SecurityException
          ("The ApplicationPool server denied authentication: " ++ a0))
      else
        pure ()

/-- `Client::checkConnection` (lines 217-223). -/
def Client.checkConnection (c : Client) : Outcome Unit :=
  match c.data with
  | none =>
    Outcome.throws (Exception.RuntimeException
      "connect() hasn't been called on this ApplicationPool::Client instance.")
  | some ch =>
    if ch.connected = false then
      Outcome.throws (Exception.IOException
        "The connection to the ApplicationPool server is closed.")
    else
      Outcome.returns ()

/-- `Client::checkSecurityResponse` (lines 225-239). -/
def checkSecurityResponse : ChannelM Bool := do
  match (← read) with
  | some args =>
    let a0 ← subscript args 0
    if a0 = "SecurityException" then do
      let a1 ← subscript args 1
      raise (Exception.SecurityException a1)
    else if a0 ≠ "Passed security" then
      raise (Exception.IOException ("Invalid security response '" ++ a0 ++ "'"))
    else
      pure true
  | none => pure false

/-- `Client::connect` (lines 266-271). `server` is the outcome of
`connectToUnixServer`: the channel on the new descriptor, or the exception
raised. -/
def Client.connect (c : Client) (server : Except Exception MessageChannel)
    (username userSuppliedPassword : String) : Outcome Unit × Client :=
  match server with
  | Except.error e => (Outcome.throws e, c)
  | Except.ok ch =>
    let r := authenticate username userSuppliedPassword ch
    (r.1, { data := some r.2 })

/-- `Client::connected` (lines 273-278). -/
def Client.connected (c : Client) : Outcome Bool :=
  match c.data with
  | none =>
    Outcome.throws (Exception.RuntimeException
      "connect() hasn't been called on this ApplicationPool::Client instance.")
  | some ch => Outcome.returns ch.connected

/-- A method body after `checkConnection()`: when the check passes, the body
runs on `data->channel`; `data` is not null then, and dereferencing a null
`data` would be undefined. -/
def Client.call {α : Type} (c : Client) (body : ChannelM α) : Outcome α × Client :=
  match c.checkConnection with
  | Outcome.throws e => (Outcome.throws e, c)
  | _ =>
    match c.data with
    | some ch => ((body ch).1, { data := some (body ch).2 })
    | none => (Outcome.undefined, c)

/-- The handlers `catch (const SecurityException &) { throw; }` and
`catch (...) { data->disconnect(); throw; }` of the methods other than `get`. -/
def disconnectUnlessSecurity {α : Type} (e : Exception) : ChannelM α :=
  match e with
  | Exception.SecurityException _ => raise e
  | _ => do disconnect; raise e

/-- `Client::clear` (lines 280-295). -/
def Client.clear (c : Client) : Outcome Unit × Client :=
  c.call (tryCatch
    (do write ["clear"]
        let _ ← checkSecurityResponse
        pure ())
    disconnectUnlessSecurity)

/-- `Client::setMaxIdleTime` (lines 297-312). -/
def Client.setMaxIdleTime (c : Client) (seconds : Nat) : Outcome Unit × Client :=
  c.call (tryCatch
    (do write ["setMaxIdleTime", toString seconds]
        let _ ← checkSecurityResponse
        pure ())
    disconnectUnlessSecurity)

/-- `Client::setMax` (lines 314-329). -/
def Client.setMax (c : Client) (max : Nat) : Outcome Unit × Client :=
  c.call (tryCatch
    (do write ["setMax", toString max]
        let _ ← checkSecurityResponse
        pure ())
    disconnectUnlessSecurity)

/-- The statements `channel.read(args); return atoi(args[0].c_str());` of
`getActive`, `getCount` and `getSpawnServerPid`: the result of `read` is not
looked at, and `args` is empty when it is `false`. -/
def readNumber : ChannelM Int := do
  let args ← read
  let a0 ← subscript (args.getD []) 0
  pure (atoi a0)

/-- `Client::getActive` (lines 331-350). -/
def Client.getActive (c : Client) : Outcome Nat × Client :=
  c.call (tryCatch
    (do write ["getActive"]
        let _ ← checkSecurityResponse
        let n ← readNumber
        pure (toUnsigned n))
    disconnectUnlessSecurity)

/-- `Client::getCount` (lines 352-371). -/
def Client.getCount (c : Client) : Outcome Nat × Client :=
  c.call (tryCatch
    (do write ["getCount"]
        let _ ← checkSecurityResponse
        let n ← readNumber
        pure (toUnsigned n))
    disconnectUnlessSecurity)

/-- `Client::setMaxPerApp` (lines 373-389). -/
def Client.setMaxPerApp (c : Client) (max : Nat) : Outcome Unit × Client :=
  c.call (tryCatch
    (do write ["setMaxPerApp", toString max]
        let _ ← checkSecurityResponse
        pure ())
    disconnectUnlessSecurity)

/-- `Client::getSpawnServerPid` (lines 391-410). -/
def Client.getSpawnServerPid (c : Client) : Outcome Int × Client :=
  c.call (tryCatch
    (do write ["getSpawnServerPid"]
        let _ ← checkSecurityResponse
        let n ← readNumber
        pure n)
    disconnectUnlessSecurity)

/-- The scalar that `get` sends in answer to a `getEnvironmentVariables`
request (lines 498-504): the serialized environment variables, or the empty
scalar when `options.environmentVariables` is null. -/
def environmentVariablesScalar (options : PoolOptions) : String :=
  match options.environmentVariables with
  | some serialized => serialized
  | none => ""

/-- The handlers of the first `try` block of `get` (lines 432-445). -/
def getWriteHandler {α : Type} (e : Exception) : ChannelM α :=
  match e with
  | Exception.SystemException brief code => do
    disconnect
    raise (Exception.SystemException
      ("Could not send the 'get' command to the ApplicationPool server: " ++ brief) code)
  | _ => do disconnect; raise e

/-- The handlers of the second `try` block of `get` (lines 450-466). -/
def getSecurityHandler {α : Type} (e : Exception) : ChannelM α :=
  match e with
  | Exception.SystemException brief code => do
    disconnect
    raise (Exception.SystemException
      ("Could not read security response for the 'get' command from the "
        ++ "ApplicationPool server: " ++ brief) code)
  | Exception.SecurityException _ => raise e
  | _ => do disconnect; raise e

/-- The handlers of the `try` block around `channel.read(args)` in the loop of
`get` (lines 475-486). -/
def getReadHandler {α : Type} (e : Exception) : ChannelM α :=
  match e with
  | Exception.SystemException _ code => do
    disconnect
    raise (Exception.SystemException
      ("Could not read a response from the ApplicationPool server "
        ++ "for the 'get' command") code)
  | _ => do disconnect; raise e

/-- The handlers of the `try` block around the `writeScalar` calls in the loop
of `get` (lines 505-517). -/
def getEnvironmentHandler {α : Type} (e : Exception) : ChannelM α :=
  match e with
  | Exception.SystemException _ code => do
    disconnect
    raise (Exception.SystemException
      ("Could not send a response for the 'getEnvironmentVariables' request "
        ++ "to the ApplicationPool server") code)
  | _ => do disconnect; raise e

/-- The handler `catch (...) { data->disconnect(); throw; }` (lines 533-538 and
548-551). -/
def disconnectAndRethrow {α : Type} (e : Exception) : ChannelM α := do
  disconnect
  raise e

/-- The `while (serverMightNeedEnvironmentVariables)` loop of `get`
(lines 472-521); it returns the `args` of the first reply other than
`getEnvironmentVariables`. The first argument bounds the number of
iterations. -/
def getReply (options : PoolOptions) : Nat → ChannelM (List String)
  | 0 => fun ch => (Outcome.outOfFuel, ch)
  | fuel + 1 => do
    let result ← tryCatch read getReadHandler
    match result with
    | none => do
      disconnect
      raise (Exception.IOException
        ("The ApplicationPool server unexpectedly closed the connection while "
          ++ "we're reading a response for the 'get' command."))
    | some args => do
      let a0 ← subscript args 0
      if a0 = "getEnvironmentVariables" then do
        tryCatch (writeScalar (environmentVariablesScalar options)) getEnvironmentHandler
        getReply options fuel
      else
        pure args

/-- The message of the `IOException` that `get` throws when the stream ends
where the error page should be (lines 554-556). -/
def errorPageEofMessage : String :=
  "The ApplicationPool server unexpectedly closed the connection while "
    ++ "we're reading the error page data."

/-- The handling of the final reply of `get` (lines 526-577). -/
def getDispatch (args : List String) : ChannelM RemoteSession := do
  let a0 ← subscript args 0
  if a0 = "ok" then do
    let a1 ← subscript args 1
    let a2 ← subscript args 2
    let stream ← tryCatch readFileDescriptor disconnectAndRethrow
    pure { pid := toInt32 (atol a1), id := atoi a2, fd := stream }
  else if a0 = "SpawnException" then do
    let a2 ← subscript args 2
    if a2 = "true" then do
      let result ← tryCatch readScalar disconnectAndRethrow
      match result with
      | none => raise (Exception.IOException errorPageEofMessage)
      | some errorPage => do
        let a1 ← subscript args 1
        raise (Exception.SpawnException a1 (some errorPage))
    else do
      let a1 ← subscript args 1
      raise (Exception.SpawnException a1 none)
  else if a0 = "BusyException" then do
    let a1 ← subscript args 1
    raise (Exception.BusyException a1)
  else if a0 = "IOException" then do
    disconnect
    let a1 ← subscript args 1
    raise (Exception.IOException a1)
  else do
    disconnect
    raise (Exception.IOException
      ("The ApplicationPool server returned an unknown message: " ++ toString args))

/-- The body of `Client::get` after `checkConnection()` (lines 415-578). The
loop is given one iteration more than there are items on the socket. -/
def getBody (options : PoolOptions) : ChannelM RemoteSession := fun ch =>
  (do
    tryCatch (write ("get" :: options.toVector)) getWriteHandler
    let _ ← tryCatch checkSecurityResponse getSecurityHandler
    let args ← getReply options (ch.incoming.length + 1)
    getDispatch args) ch

/-- `Client::get` (lines 412-578). -/
def Client.get (c : Client) (options : PoolOptions) : Outcome RemoteSession × Client :=
  c.call (getBody options)

/-- A channel on descriptor `fd` on which nothing has been done yet: its reads
will meet `incoming`, and all its writes succeed. -/
def MessageChannel.fresh (fd : Int) (incoming : List Incoming) : MessageChannel :=
  { fd := fd, incoming := incoming, writeFaults := [], trace := [] }

/-- Whether the client holds a connected channel. -/
def Client.isConnected (c : Client) : Bool :=
  match c.data with
  | some ch => ch.connected
  | none => false

/-- The exception is a `SecurityException`. -/
def Exception.isSecurity : Exception → Bool
  | Exception.SecurityException _ => true
  | _ => false

/-- The failures that the server reports for a `get` and after which the
client stub keeps the connection: `SecurityException`, `SpawnException` and
`BusyException`. -/
def Exception.isReported : Exception → Bool
  | Exception.SecurityException _ => true
  | Exception.SpawnException _ _ => true
  | Exception.BusyException _ => true
  | _ => false

/-- On a connected channel, `m` leaves the channel connected when it returns,
and `E e c` holds when it throws `e` and leaves the channel with
`connected() == c`. -/
def Triple {α : Type} (m : ChannelM α) (E : Exception → Bool → Prop) : Prop :=
  ∀ ch : MessageChannel, ch.fd ≠ -1 →
    (∀ a ch1, m ch = (Outcome.returns a, ch1) → ch1.fd ≠ -1)
      ∧ (∀ e ch1, m ch = (Outcome.throws e, ch1) → E e ch1.connected)

/-! ### Concrete clients -/

/-- The options of scenario S1, without environment variables. -/
def s1Options : PoolOptions :=
  { toVector := ["appRoot", "/a", "minProcesses", "0", "maxProcesses", "2"]
    environmentVariables := none }

/-- A connected client whose server answers the next command with
`Passed security` and then `BusyException busy`. -/
def busyClient : Client :=
  { data := some (MessageChannel.fresh 3
      [Incoming.message ["Passed security"], Incoming.message ["BusyException", "busy"]]) }

/-- A connected client whose server answers the next command with
`Passed security` and then `SpawnException boom false` (scenario S3). -/
def spawnFailureClient : Client :=
  { data := some (MessageChannel.fresh 3
      [Incoming.message ["Passed security"],
       Incoming.message ["SpawnException", "boom", "false"]]) }

/-- A connected client whose server refuses the next command. -/
def refusedClient : Client :=
  { data := some (MessageChannel.fresh 3
      [Incoming.message ["SecurityException", "not allowed"]]) }

/-- A server that answers the authentication with the vector
`SecurityException denied`. -/
def denyingServer : MessageChannel :=
  MessageChannel.fresh 3 [Incoming.message ["SecurityException", "denied"]]

/-- A connected client whose server answers `clear` with `Passed security` and
`ok`, and the next command with `Passed security` and `3`. -/
def clearOkClient : Client :=
  { data := some (MessageChannel.fresh 3
      [Incoming.message ["Passed security"], Incoming.message ["ok"],
       Incoming.message ["Passed security"], Incoming.message ["3"]]) }

/-- A session with an open stream on descriptor 12. -/
def openSession : RemoteSession := { pid := 100, id := 7, fd := 12 }

/-- A channel that has been disconnected. -/
def closedChannel : MessageChannel :=
  { fd := -1, incoming := [], writeFaults := [], trace := [] }

/-- A connected channel whose next write fails with `EPIPE`. -/
def brokenChannel : MessageChannel :=
  { fd := 3, incoming := []
    writeFaults := [some (ChannelFault.systemException "write() failed" 32)]
    trace := [] }

/-! ### Traces -/

/-- The trace of the client's channel; empty before `connect`. -/
def Client.trace (c : Client) : List Op :=
  match c.data with
  | some ch => ch.trace
  | none => []

/-- What a channel operation can throw: it throws on a channel that stays
connected, and none of the exceptions of the pool protocol. -/
def ChannelOnly (e : Exception) (c : Bool) : Prop := c = true ∧ e.isReported = false

/-- What `checkSecurityResponse` can throw: on a channel that stays connected,
a `SecurityException` or an exception that is none of the pool protocol. -/
def SecurityOrChannel (e : Exception) (c : Bool) : Prop :=
  c = true ∧ (e.isReported = true → e.isSecurity = true)

/-- The exception leaves the channel connected. -/
def StaysConnected (_e : Exception) (c : Bool) : Prop := c = true

/-- The close policy of the methods other than `get`: after a failure the
channel is connected exactly when the failure is a `SecurityException`. -/
def SecurityPolicy (e : Exception) (c : Bool) : Prop := c = true ↔ e.isSecurity = true

/-- The close policy of `get`: after a failure other than the `IOException` for
the missing error page, the channel is connected exactly when the failure is a
`SecurityException`, a `SpawnException` or a `BusyException`. -/
def GetPolicy (e : Exception) (c : Bool) : Prop :=
  e ≠ Exception.IOException errorPageEofMessage → (c = true ↔ e.isReported = true)

end ApplicationPool

/-! ## Part 1, proofs -/

namespace ApplicationPool2

theorem maybeUpdateNextGcRuntime_now (state : GarbageCollectorState) (c : Nat) :
    (maybeUpdateNextGcRuntime state c).now = state.now := by
  unfold maybeUpdateNextGcRuntime
  split <;> rfl

theorem maybeUpdateNextGcRuntime_actions (state : GarbageCollectorState) (c : Nat) :
    (maybeUpdateNextGcRuntime state c).actions = state.actions := by
  unfold maybeUpdateNextGcRuntime
  split <;> rfl

theorem collectProcessesToGc_spec (m : Nat) (g : Group) (ps : List Process) :
    ∀ acc : GarbageCollectorState × List Process,
      (collectProcessesToGc m g ps acc).2
          = acc.2 ++ ps.filter (canBeGarbageCollected m acc.1.now g)
        ∧ (collectProcessesToGc m g ps acc).1.now = acc.1.now
        ∧ (collectProcessesToGc m g ps acc).1.actions = acc.1.actions := by
  induction ps with
  | nil => intro acc; simp [collectProcessesToGc]
  | cons p rest ih =>
    intro acc
    have h := ih (checkWhetherProcessCanBeGarbageCollected m acc.1 g p acc.2)
    simp only [collectProcessesToGc]
    by_cases hc : p.sessions = 0 ∧ acc.1.now ≥ processGcTime m p
        ∧ g.getProcessCount > g.options.minProcesses
    · have hb : canBeGarbageCollected m acc.1.now g p = true := by
        simp [canBeGarbageCollected, hc]
      simp only [checkWhetherProcessCanBeGarbageCollected, if_pos hc] at h ⊢
      simp [h, List.filter_cons, hb]
    · have hb : canBeGarbageCollected m acc.1.now g p = false := by
        simp only [canBeGarbageCollected, decide_eq_false_iff_not]; exact hc
      simp only [checkWhetherProcessCanBeGarbageCollected, if_neg hc,
        maybeUpdateNextGcRuntime_now, maybeUpdateNextGcRuntime_actions] at h ⊢
      simp [h, List.filter_cons, hb]

theorem Group.detach_name (g : Group) (p : Process) (acts : List Action) :
    (g.detach p acts).1.name = g.name := by
  unfold Group.detach
  dsimp only
  split
  · rfl
  · split <;> rfl

theorem Group.detach_options (g : Group) (p : Process) (acts : List Action) :
    (g.detach p acts).1.options = g.options := by
  unfold Group.detach
  dsimp only
  split
  · rfl
  · split <;> rfl

theorem Group.detach_spawner (g : Group) (p : Process) (acts : List Action) :
    (g.detach p acts).1.spawner = g.spawner := by
  unfold Group.detach
  dsimp only
  split
  · rfl
  · split <;> rfl

theorem detachProcesses_spec (ps : List Process) :
    ∀ acc : Group × List Action,
      (detachProcesses ps acc).2 = acc.2 ++ ps.map (Action.detach acc.1.name)
        ∧ (detachProcesses ps acc).1.name = acc.1.name
        ∧ (detachProcesses ps acc).1.options = acc.1.options
        ∧ (detachProcesses ps acc).1.spawner = acc.1.spawner := by
  induction ps with
  | nil => intro acc; simp [detachProcesses]
  | cons p rest ih =>
    intro acc
    have h := ih (acc.1.detach p acc.2)
    simp only [detachProcesses]
    rw [h.1, h.2.1, h.2.2.1, h.2.2.2, Group.detach_name, Group.detach_options,
      Group.detach_spawner]
    simp [Group.detach]

theorem garbageCollectProcessesInGroup_spec (m : Nat) (state : GarbageCollectorState)
    (g : Group) :
    (garbageCollectProcessesInGroup m state g).1.actions
        = state.actions
          ++ (g.enabledProcesses.filter (canBeGarbageCollected m state.now g)).map
              (Action.detach g.name)
      ∧ (garbageCollectProcessesInGroup m state g).1.now = state.now
      ∧ (garbageCollectProcessesInGroup m state g).2.name = g.name
      ∧ (garbageCollectProcessesInGroup m state g).2.options = g.options
      ∧ (garbageCollectProcessesInGroup m state g).2.spawner = g.spawner := by
  have hc := collectProcessesToGc_spec m g g.enabledProcesses (state, [])
  have hd := detachProcesses_spec
    (collectProcessesToGc m g g.enabledProcesses (state, [])).2
    (g, (collectProcessesToGc m g g.enabledProcesses (state, [])).1.actions)
  simp only [garbageCollectProcessesInGroup]
  refine ⟨?_, hc.2.1, hd.2.1, hd.2.2.1, hd.2.2.2⟩
  rw [hd.1, hc.2.2, hc.1]
  simp

theorem spawnerGcTime_congr (g h : Group) (ho : h.options = g.options)
    (hs : h.spawner = g.spawner) : spawnerGcTime h = spawnerGcTime g := by
  simp [spawnerGcTime, ho, hs]

theorem preloaderIsCleaned_congr (now : Nat) (g h : Group) (ho : h.options = g.options)
    (hs : h.spawner = g.spawner) : preloaderIsCleaned now h = preloaderIsCleaned now g := by
  simp [preloaderIsCleaned, ho, hs, spawnerGcTime_congr g h ho hs]

theorem maybeCleanPreloader_spec (state : GarbageCollectorState) (g : Group) :
    (maybeCleanPreloader state g).actions
        = state.actions
          ++ (if preloaderIsCleaned state.now g = true then [Action.cleanupSpawner g.name]
              else [])
      ∧ (maybeCleanPreloader state g).now = state.now := by
  unfold maybeCleanPreloader
  by_cases h1 : g.spawner.cleanable = true ∧ g.options.maxPreloaderIdleTime ≠ 0
  · by_cases h2 : state.now ≥ spawnerGcTime g
    · have hb : preloaderIsCleaned state.now g = true := by
        simp only [preloaderIsCleaned, decide_eq_true_eq]; exact ⟨h1, h2⟩
      simp [if_pos h1, if_pos h2, hb, Group.cleanupSpawner]
    · have hb : preloaderIsCleaned state.now g = false := by
        simp only [preloaderIsCleaned, decide_eq_false_iff_not]; exact fun h => h2 h.2
      simp [if_pos h1, if_neg h2, hb, maybeUpdateNextGcRuntime_now,
        maybeUpdateNextGcRuntime_actions]
  · have hb : preloaderIsCleaned state.now g = false := by
      simp only [preloaderIsCleaned, decide_eq_false_iff_not]; exact fun h => h1 h.1
    simp [if_neg h1, hb]

theorem collectGroup_spec (m : Nat) (state : GarbageCollectorState) (g : Group) :
    (collectGroup m state g).1.actions = state.actions ++ groupActions m state.now g
      ∧ (collectGroup m state g).1.now = state.now := by
  unfold collectGroup
  by_cases hm : m > 0
  · have hg := garbageCollectProcessesInGroup_spec m state g
    have hp := maybeCleanPreloader_spec (garbageCollectProcessesInGroup m state g).1
      (garbageCollectProcessesInGroup m state g).2
    simp only [if_pos hm]
    rw [hp.1, hp.2, hg.1, hg.2.1, hg.2.2.1,
      preloaderIsCleaned_congr state.now g _ hg.2.2.2.1 hg.2.2.2.2]
    simp [groupActions, hm]
  · have hp := maybeCleanPreloader_spec state g
    simp only [if_neg hm]
    rw [hp.1, hp.2]
    simp [groupActions, hm]

theorem collectGroups_spec (m : Nat) (gs : List Group) :
    ∀ state : GarbageCollectorState,
      (collectGroups m gs state).1.actions
          = state.actions ++ gs.flatMap (groupActions m state.now)
        ∧ (collectGroups m gs state).1.now = state.now := by
  induction gs with
  | nil => intro state; simp [collectGroups]
  | cons g rest ih =>
    intro state
    have hg := collectGroup_spec m state g
    have hr := ih (collectGroup m state g).1
    simp only [collectGroups]
    rw [hr.1, hr.2, hg.1, hg.2]
    simp [List.flatMap_cons]

theorem collectSuperGroups_spec (m : Nat) (sgs : List SuperGroup) :
    ∀ state : GarbageCollectorState,
      (collectSuperGroups m sgs state).1.actions
          = state.actions
            ++ (sgs.flatMap SuperGroup.groups).flatMap (groupActions m state.now)
        ∧ (collectSuperGroups m sgs state).1.now = state.now := by
  induction sgs with
  | nil => intro state; simp [collectSuperGroups]
  | cons sg rest ih =>
    intro state
    have hg := collectGroups_spec m sg.groups state
    have hr := ih (collectGroups m sg.groups state).1
    simp only [collectSuperGroups]
    rw [hr.1, hr.2, hg.1, hg.2]
    simp [List.flatMap_cons, List.flatMap_append]

/-- The actions of one tick are the actions of its groups, in the order of the
walk. -/
theorem realGarbageCollect_actions (pool : Pool) (now : Nat) :
    (realGarbageCollect pool now).actions
      = pool.allGroups.flatMap (groupActions pool.maxIdleTime now) := by
  have h := collectSuperGroups_spec pool.maxIdleTime pool.superGroups
    { now := now, nextGcRunTime := 0, actions := [] }
  simp only [realGarbageCollect, Pool.allGroups]
  rw [h.1]
  simp

theorem mem_detachedBy (gname : String) (p : Process) (acts : List Action) :
    (gname, p) ∈ detachedBy acts ↔ Action.detach gname p ∈ acts := by
  induction acts with
  | nil => simp [detachedBy]
  | cons a rest ih =>
    cases a with
    | detach g q => simp [detachedBy, ih]
    | cleanupSpawner g => simp [detachedBy, ih]

theorem mem_cleanedBy (gname : String) (acts : List Action) :
    gname ∈ cleanedBy acts ↔ Action.cleanupSpawner gname ∈ acts := by
  induction acts with
  | nil => simp [cleanedBy]
  | cons a rest ih =>
    cases a with
    | detach g q => simp [cleanedBy, ih]
    | cleanupSpawner g => simp [cleanedBy, ih]

theorem detachedBy_append (xs ys : List Action) :
    detachedBy (xs ++ ys) = detachedBy xs ++ detachedBy ys := by
  induction xs with
  | nil => simp [detachedBy]
  | cons a rest ih => cases a <;> simp [detachedBy, ih]

theorem cleanedBy_append (xs ys : List Action) :
    cleanedBy (xs ++ ys) = cleanedBy xs ++ cleanedBy ys := by
  induction xs with
  | nil => simp [cleanedBy]
  | cons a rest ih => cases a <;> simp [cleanedBy, ih]

theorem detachedBy_map_detach (gname : String) (ps : List Process) :
    detachedBy (ps.map (Action.detach gname)) = ps.map (fun p => (gname, p)) := by
  induction ps with
  | nil => simp [detachedBy]
  | cons p rest ih => simp [detachedBy, ih]

theorem cleanedBy_map_detach (gname : String) (ps : List Process) :
    cleanedBy (ps.map (Action.detach gname)) = [] := by
  induction ps with
  | nil => simp [cleanedBy]
  | cons p rest ih => simp [cleanedBy, ih]

theorem detachedBy_groupActions (m now : Nat) (g : Group) :
    detachedBy (groupActions m now g)
      = if m > 0 then
          (g.enabledProcesses.filter (canBeGarbageCollected m now g)).map
            (fun p => (g.name, p))
        else [] := by
  unfold groupActions
  rw [detachedBy_append]
  by_cases hm : m > 0 <;> by_cases hp : preloaderIsCleaned now g = true <;>
    simp [hm, hp, detachedBy, detachedBy_map_detach]

theorem cleanedBy_groupActions (m now : Nat) (g : Group) :
    cleanedBy (groupActions m now g)
      = if preloaderIsCleaned now g = true then [g.name] else [] := by
  unfold groupActions
  rw [cleanedBy_append]
  by_cases hm : m > 0 <;> by_cases hp : preloaderIsCleaned now g = true <;>
    simp [hm, hp, cleanedBy, cleanedBy_map_detach]

theorem detachedBy_flatMap (f : Group → List Action) (gs : List Group) :
    detachedBy (gs.flatMap f) = gs.flatMap (fun g => detachedBy (f g)) := by
  induction gs with
  | nil => simp [detachedBy]
  | cons g rest ih => simp [List.flatMap_cons, detachedBy_append, ih]

theorem cleanedBy_flatMap (f : Group → List Action) (gs : List Group) :
    cleanedBy (gs.flatMap f) = gs.flatMap (fun g => cleanedBy (f g)) := by
  induction gs with
  | nil => simp [cleanedBy]
  | cons g rest ih => simp [List.flatMap_cons, cleanedBy_append, ih]

/-- The spawner cleanups of one tick: one per group that passes the test of
`maybeCleanPreloader`, whatever `maxIdleTime` is. -/
theorem cleanedBy_realGarbageCollect (pool : Pool) (now : Nat) :
    cleanedBy (realGarbageCollect pool now).actions
      = pool.allGroups.flatMap
          (fun g => if preloaderIsCleaned now g = true then [g.name] else []) := by
  rw [realGarbageCollect_actions, cleanedBy_flatMap]
  simp only [cleanedBy_groupActions]

/-- The detaches of one tick: per group, the enabled processes that pass the
test of `checkWhetherProcessCanBeGarbageCollected`, when `maxIdleTime > 0`. -/
theorem detachedBy_realGarbageCollect (pool : Pool) (now : Nat) :
    detachedBy (realGarbageCollect pool now).actions
      = pool.allGroups.flatMap
          (fun g => if pool.maxIdleTime > 0 then
              (g.enabledProcesses.filter
                (canBeGarbageCollected pool.maxIdleTime now g)).map (fun p => (g.name, p))
            else []) := by
  rw [realGarbageCollect_actions, detachedBy_flatMap]
  simp only [detachedBy_groupActions]

theorem u64_le (n : Nat) : u64 n ≤ n := Nat.mod_le n _

theorem u64_eq_of_lt (n : Nat) (h : n < 2 ^ 64) : u64 n = n := Nat.mod_eq_of_lt h

theorem spawnerGcTime_le (g : Group) :
    spawnerGcTime g ≤ g.spawner.lastUsed + g.options.maxPreloaderIdleTime * 1000000 := by
  unfold spawnerGcTime
  have h1 := u64_le (g.spawner.lastUsed + u64 (g.options.maxPreloaderIdleTime * 1000000))
  have h2 := u64_le (g.options.maxPreloaderIdleTime * 1000000)
  omega

theorem canBeGarbageCollected_iff (m now : Nat) (g : Group) (p : Process) :
    canBeGarbageCollected m now g p = true
      ↔ p.sessions = 0 ∧ now ≥ processGcTime m p
          ∧ g.getProcessCount > g.options.minProcesses := by
  simp [canBeGarbageCollected]

theorem mem_detachedBy_realGarbageCollect (pool : Pool) (now : Nat) (gname : String)
    (p : Process) :
    (gname, p) ∈ detachedBy (realGarbageCollect pool now).actions
      ↔ ∃ g ∈ pool.allGroups, pool.maxIdleTime > 0 ∧ g.name = gname
          ∧ p ∈ g.enabledProcesses
          ∧ canBeGarbageCollected pool.maxIdleTime now g p = true := by
  rw [detachedBy_realGarbageCollect]
  simp only [List.mem_flatMap]
  constructor
  · rintro ⟨g, hg, hmem⟩
    by_cases hm : pool.maxIdleTime > 0
    · simp only [if_pos hm, List.mem_map, List.mem_filter, Prod.mk.injEq] at hmem
      obtain ⟨q, ⟨hq, hc⟩, hn, rfl⟩ := hmem
      exact ⟨g, hg, hm, hn, hq, hc⟩
    · simp [if_neg hm] at hmem
  · rintro ⟨g, hg, hm, hn, hq, hc⟩
    refine ⟨g, hg, ?_⟩
    simp only [if_pos hm, List.mem_map, List.mem_filter, Prod.mk.injEq]
    exact ⟨p, ⟨hq, hc⟩, hn, rfl⟩

/-! ### C1: GC safety -/

/-- C1, as amended: every process that one tick of `realGarbageCollect` passes
to `group.detach` is an enabled process of a group of the pool that, at the
moment of decision, had `sessions == 0`, `now >= lastUsed + maxIdleTime` (the
sum as the code computes it, which is the exact sum whenever that is below
`2^64`) and whose group had `getProcessCount()`, the number of its enabled,
disabling and disabled processes together, strictly above
`options.minProcesses`; and `maxIdleTime > 0`. -/
theorem gc_safety (pool : Pool) (now : Nat) (gname : String) (p : Process)
    (h : (gname, p) ∈ detachedBy (realGarbageCollect pool now).actions) :
    ∃ g ∈ pool.allGroups, g.name = gname
      ∧ p ∈ g.enabledProcesses
      ∧ p.sessions = 0
      ∧ now ≥ processGcTime pool.maxIdleTime p
      ∧ (p.lastUsed + pool.maxIdleTime < 2 ^ 64 → now ≥ p.lastUsed + pool.maxIdleTime)
      ∧ g.getProcessCount > g.options.minProcesses
      ∧ pool.maxIdleTime > 0 := by
  obtain ⟨g, hg, hm, hn, hp, hc⟩ :=
    (mem_detachedBy_realGarbageCollect pool now gname p).1 h
  rw [canBeGarbageCollected_iff] at hc
  refine ⟨g, hg, hn, hp, hc.1, hc.2.1, ?_, hc.2.2, hm⟩
  intro hlt
  have := hc.2.1
  rw [processGcTime, u64_eq_of_lt _ hlt] at this
  exact this

/-- Witness of `gc_safety`: scenario S4 at `now = 1_000_000`, worker 1. -/
theorem gc_safety_witness :
    (("a", { pid := 1, sessions := 0, lastUsed := 0 })
        ∈ detachedBy (realGarbageCollect s4Pool 1000000).actions)
      ∧ ∃ g ∈ s4Pool.allGroups, g.name = "a"
          ∧ ({ pid := 1, sessions := 0, lastUsed := 0 } : Process) ∈ g.enabledProcesses
          ∧ ({ pid := 1, sessions := 0, lastUsed := 0 } : Process).sessions = 0
          ∧ 1000000 ≥ processGcTime s4Pool.maxIdleTime { pid := 1, sessions := 0, lastUsed := 0 }
          ∧ (({ pid := 1, sessions := 0, lastUsed := 0 } : Process).lastUsed
                + s4Pool.maxIdleTime < 2 ^ 64
              → 1000000 ≥ ({ pid := 1, sessions := 0, lastUsed := 0 } : Process).lastUsed
                  + s4Pool.maxIdleTime)
          ∧ g.getProcessCount > g.options.minProcesses
          ∧ s4Pool.maxIdleTime > 0 :=
  ⟨by decide, gc_safety s4Pool 1000000 "a" { pid := 1, sessions := 0, lastUsed := 0 }
    (by decide)⟩

/-- C1 as stated fails: at `now = 100` the tick detaches worker 1 of
`mixedGroup`, the only group of `mixedPool`, although the group's
`enabledCount` (1) is not above `options.minProcesses` (1); the test passes
because `getProcessCount()` is 2. -/
theorem gc_safety_enabledCount_counterexample :
    detachedBy (realGarbageCollect mixedPool 100).actions
        = [("app", { pid := 1, sessions := 0, lastUsed := 0 })]
      ∧ mixedPool.allGroups = [mixedGroup]
      ∧ mixedGroup.enabledCount = 1
      ∧ mixedGroup.options.minProcesses = 1
      ∧ ¬ (mixedGroup.enabledCount > mixedGroup.options.minProcesses)
      ∧ mixedGroup.getProcessCount = 2 := by
  decide

/-! ### C2: the `minProcesses` floor -/

/-- C2 at scenario S4: with `minProcesses = 1` and three idle enabled workers,
one run of `garbageCollectProcessesInGroup` (and one tick of
`realGarbageCollect`) passes all three workers to `group.detach` and leaves the
group without enabled process: every worker is tested against the process
count of the group before the first detach. -/
theorem minProcesses_floor_S4 :
    detachedBy
        (garbageCollectProcessesInGroup 1000000
          { now := 1000000, nextGcRunTime := 0, actions := [] } s4Group).1.actions
        = [("a", { pid := 1, sessions := 0, lastUsed := 0 }),
           ("a", { pid := 2, sessions := 0, lastUsed := 0 }),
           ("a", { pid := 3, sessions := 0, lastUsed := 0 })]
      ∧ (garbageCollectProcessesInGroup 1000000
          { now := 1000000, nextGcRunTime := 0, actions := [] } s4Group).2.enabledProcesses
        = []
      ∧ (garbageCollectProcessesInGroup 1000000
          { now := 1000000, nextGcRunTime := 0, actions := [] } s4Group).2.getProcessCount
        = 0
      ∧ s4Group.options.minProcesses = 1
      ∧ (detachedBy (realGarbageCollect s4Pool 1000000).actions).length = 3
      ∧ (realGarbageCollect s4Pool 1000000).pool.allGroups.map Group.getProcessCount
        = [0] := by
  decide

/-! ### C9: `maxIdleTime == 0` -/

theorem collectGroups_groups_zero (gs : List Group) :
    ∀ state : GarbageCollectorState, (collectGroups 0 gs state).2 = gs := by
  induction gs with
  | nil => intro state; simp [collectGroups]
  | cons g rest ih =>
    intro state
    simp only [collectGroups]
    rw [ih]
    simp [collectGroup]

theorem collectSuperGroups_zero (sgs : List SuperGroup) :
    ∀ state : GarbageCollectorState, (collectSuperGroups 0 sgs state).2 = sgs := by
  induction sgs with
  | nil => intro state; simp [collectSuperGroups]
  | cons sg rest ih =>
    intro state
    simp only [collectSuperGroups]
    rw [ih, collectGroups_groups_zero]

theorem mem_cleanedBy_realGarbageCollect (pool : Pool) (now : Nat) (gname : String) :
    gname ∈ cleanedBy (realGarbageCollect pool now).actions
      ↔ ∃ g ∈ pool.allGroups, g.name = gname ∧ preloaderIsCleaned now g = true := by
  rw [cleanedBy_realGarbageCollect]
  simp only [List.mem_flatMap]
  constructor
  · rintro ⟨g, hg, hmem⟩
    by_cases hc : preloaderIsCleaned now g = true
    · simp only [if_pos hc, List.mem_singleton] at hmem
      exact ⟨g, hg, hmem.symm, hc⟩
    · simp [if_neg hc] at hmem
  · rintro ⟨g, hg, hn, hc⟩
    exact ⟨g, hg, by simp [if_pos hc, hn]⟩

/-- C9, as amended: when `maxIdleTime == 0`, one tick of `realGarbageCollect`
detaches no worker and leaves every group as it was; the spawner cleanups are
the same as under any other `maxIdleTime`; `cleanupSpawner` is scheduled for
every group whose preloader is `cleanable()`, whose `maxPreloaderIdleTime` is
not 0 and whose preloader has been idle for at least `maxPreloaderIdleTime`
seconds, and for no group whose preloader is not cleanable or whose
`maxPreloaderIdleTime` is 0. -/
theorem maxIdleTime_zero_boundary (pool : Pool) (now : Nat) (h0 : pool.maxIdleTime = 0) :
    detachedBy (realGarbageCollect pool now).actions = []
      ∧ (realGarbageCollect pool now).pool = pool
      ∧ (∀ m : Nat,
          cleanedBy (realGarbageCollect { pool with maxIdleTime := m } now).actions
            = cleanedBy (realGarbageCollect pool now).actions)
      ∧ (∀ g ∈ pool.allGroups, g.spawner.cleanable = true →
          g.options.maxPreloaderIdleTime ≠ 0 →
          now ≥ g.spawner.lastUsed + g.options.maxPreloaderIdleTime * 1000000 →
          g.name ∈ cleanedBy (realGarbageCollect pool now).actions)
      ∧ (∀ gname ∈ cleanedBy (realGarbageCollect pool now).actions,
          ∃ g ∈ pool.allGroups, g.name = gname ∧ g.spawner.cleanable = true
            ∧ g.options.maxPreloaderIdleTime ≠ 0 ∧ now ≥ spawnerGcTime g) := by
  refine ⟨?_, ?_, ?_, ?_, ?_⟩
  · rw [detachedBy_realGarbageCollect]
    simp [h0]
  · obtain ⟨m, sgs⟩ := pool
    simp only at h0
    subst h0
    simp [realGarbageCollect, collectSuperGroups_zero]
  · intro m
    rw [cleanedBy_realGarbageCollect, cleanedBy_realGarbageCollect]
    rfl
  · intro g hg hc hz hidle
    rw [mem_cleanedBy_realGarbageCollect]
    refine ⟨g, hg, rfl, ?_⟩
    simp only [preloaderIsCleaned, decide_eq_true_eq]
    exact ⟨⟨hc, hz⟩, le_trans (spawnerGcTime_le g) hidle⟩
  · intro gname hmem
    rw [mem_cleanedBy_realGarbageCollect] at hmem
    obtain ⟨g, hg, hn, hc⟩ := hmem
    simp only [preloaderIsCleaned, decide_eq_true_eq] at hc
    exact ⟨g, hg, hn, hc.1.1, hc.1.2, hc.2⟩

/-- Witness of `maxIdleTime_zero_boundary`: `preloaderPool` two seconds after
the preloader was last used; the idle worker stays, the preloader is cleaned. -/
theorem maxIdleTime_zero_boundary_witness :
    preloaderPool.maxIdleTime = 0
      ∧ detachedBy (realGarbageCollect preloaderPool 2000000).actions = []
      ∧ cleanedBy (realGarbageCollect preloaderPool 2000000).actions = ["q"] :=
  ⟨rfl, (maxIdleTime_zero_boundary preloaderPool 2000000 rfl).1, by decide⟩

/-- C9 as stated fails: in `zeroPreloaderPool` (`maxIdleTime == 0`) the only
group has a cleanable preloader that has been idle for at least its
`maxPreloaderIdleTime` (0 seconds) at `now = 5`, and the tick schedules no
`cleanupSpawner`. -/
theorem maxIdleTime_zero_preloader_counterexample :
    zeroPreloaderPool.maxIdleTime = 0
      ∧ zeroPreloaderPool.allGroups = [zeroPreloaderGroup]
      ∧ zeroPreloaderGroup.spawner.cleanable = true
      ∧ 5 ≥ zeroPreloaderGroup.spawner.lastUsed
            + zeroPreloaderGroup.options.maxPreloaderIdleTime * 1000000
      ∧ cleanedBy (realGarbageCollect zeroPreloaderPool 5).actions = []
      ∧ (realGarbageCollect zeroPreloaderPool 5).actions = [] := by
  decide

/-! ### C10: fixed-size groups -/

theorem mem_collectGroups (m : Nat) (g : Group) (gs : List Group) :
    ∀ state : GarbageCollectorState, g ∈ gs →
      ∃ st : GarbageCollectorState, (collectGroup m st g).2 ∈ (collectGroups m gs state).2 := by
  induction gs with
  | nil => intro state h; simp at h
  | cons g0 rest ih =>
    intro state h
    simp only [collectGroups]
    rcases List.mem_cons.1 h with rfl | hr
    · exact ⟨state, List.mem_cons_self _ _⟩
    · obtain ⟨st, hst⟩ := ih (collectGroup m state g0).1 hr
      exact ⟨st, List.mem_cons_of_mem _ hst⟩

theorem mem_collectSuperGroups (m : Nat) (g : Group) (sgs : List SuperGroup) :
    ∀ state : GarbageCollectorState, g ∈ sgs.flatMap SuperGroup.groups →
      ∃ st : GarbageCollectorState,
        (collectGroup m st g).2
          ∈ (collectSuperGroups m sgs state).2.flatMap SuperGroup.groups := by
  induction sgs with
  | nil => intro state h; simp at h
  | cons sg rest ih =>
    intro state h
    simp only [collectSuperGroups, List.flatMap_cons, List.mem_append] at h ⊢
    rcases h with h1 | h2
    · obtain ⟨st, hst⟩ := mem_collectGroups m g sg.groups state h1
      exact ⟨st, Or.inl hst⟩
    · obtain ⟨st, hst⟩ := ih (collectGroups m sg.groups state).1 h2
      exact ⟨st, Or.inr hst⟩

theorem garbageCollectProcessesInGroup_none (m : Nat) (state : GarbageCollectorState)
    (g : Group) (h : ¬ g.getProcessCount > g.options.minProcesses) :
    (garbageCollectProcessesInGroup m state g).2 = g
      ∧ (garbageCollectProcessesInGroup m state g).1.actions = state.actions := by
  have hf : g.enabledProcesses.filter (canBeGarbageCollected m state.now g) = [] := by
    rw [List.filter_eq_nil_iff]
    intro p _ hc
    rw [canBeGarbageCollected_iff] at hc
    exact h hc.2.2
  have hc := collectProcessesToGc_spec m g g.enabledProcesses (state, [])
  have h2 : (collectProcessesToGc m g g.enabledProcesses (state, [])).2 = [] := by
    rw [hc.1]; simpa using hf
  constructor
  · simp only [garbageCollectProcessesInGroup, h2, detachProcesses]
  · simp only [garbageCollectProcessesInGroup, h2, detachProcesses]
    exact hc.2.2

/-- C10, as amended: a group with `options.minProcesses == options.maxProcesses`
whose process count `getProcessCount()` (enabled, disabling and disabled
processes together) satisfies
`processesBeingSpawned + getProcessCount() <= options.maxProcesses` loses no
worker in a GC tick, for every `now`, `maxIdleTime` and every `sessions` and
`lastUsed` of its workers: the pass of the tick over the group leaves the group
as it was and adds no detach to the actions, and the group is still in the pool
after the tick. -/
theorem fixed_size_group_not_collected (g : Group)
    (hfixed : g.options.minProcesses = g.options.maxProcesses)
    (hinv : g.processesBeingSpawned + g.getProcessCount ≤ g.options.maxProcesses) :
    (∀ (maxIdleTime : Nat) (state : GarbageCollectorState),
        (collectGroup maxIdleTime state g).2 = g
          ∧ detachedBy (collectGroup maxIdleTime state g).1.actions
              = detachedBy state.actions)
      ∧ (∀ (pool : Pool) (now : Nat), g ∈ pool.allGroups →
          g ∈ (realGarbageCollect pool now).pool.allGroups) := by
  have hno : ¬ g.getProcessCount > g.options.minProcesses := by omega
  have hkeep : ∀ (m : Nat) (st : GarbageCollectorState), (collectGroup m st g).2 = g := by
    intro m st
    unfold collectGroup
    by_cases hm : m > 0
    · simp only [if_pos hm]
      exact (garbageCollectProcessesInGroup_none m st g hno).1
    · simp only [if_neg hm]
  refine ⟨fun m st => ⟨hkeep m st, ?_⟩, ?_⟩
  · rw [(collectGroup_spec m st g).1, detachedBy_append, detachedBy_groupActions]
    have hf : g.enabledProcesses.filter (canBeGarbageCollected m st.now g) = [] := by
      rw [List.filter_eq_nil_iff]
      intro p _ hc
      rw [canBeGarbageCollected_iff] at hc
      exact hno hc.2.2
    simp [hf]
  · intro pool now hg
    obtain ⟨st, hst⟩ := mem_collectSuperGroups pool.maxIdleTime g pool.superGroups
      { now := now, nextGcRunTime := 0, actions := [] } hg
    rw [hkeep] at hst
    exact hst

/-- Witness of `fixed_size_group_not_collected`: `fixedGroup` in `fixedPool`. -/
theorem fixed_size_group_not_collected_witness :
    fixedGroup.options.minProcesses = fixedGroup.options.maxProcesses
      ∧ fixedGroup.processesBeingSpawned + fixedGroup.getProcessCount
          ≤ fixedGroup.options.maxProcesses
      ∧ detachedBy (realGarbageCollect fixedPool 100).actions = []
      ∧ fixedGroup ∈ (realGarbageCollect fixedPool 100).pool.allGroups :=
  ⟨by decide, by decide, by decide,
    (fixed_size_group_not_collected fixedGroup (by decide) (by decide)).2 fixedPool 100
      (by decide)⟩

/-- C10 as stated fails: `fixedMixedGroup` has
`minProcesses == maxProcesses == 1` and satisfies
`processesBeingSpawned + enabledCount <= maxProcesses`, and the tick at
`now = 100` detaches its only enabled worker, because the disabled worker brings
`getProcessCount()` to 2. -/
theorem fixed_size_group_counterexample :
    fixedMixedGroup.options.minProcesses = fixedMixedGroup.options.maxProcesses
      ∧ fixedMixedGroup.processesBeingSpawned + fixedMixedGroup.enabledCount
          ≤ fixedMixedGroup.options.maxProcesses
      ∧ fixedMixedPool.allGroups = [fixedMixedGroup]
      ∧ detachedBy (realGarbageCollect fixedMixedPool 100).actions
          = [("f", { pid := 1, sessions := 0, lastUsed := 0 })]
      ∧ (realGarbageCollect fixedMixedPool 100).pool.allGroups.map Group.enabledProcesses
          = [[]] := by
  decide

/-! ### C11: the preloader cleanup rule -/

theorem spawnerGcTime_eq_of_lt (g : Group)
    (h : g.spawner.lastUsed + g.options.maxPreloaderIdleTime * 1000000 < 2 ^ 64) :
    spawnerGcTime g = g.spawner.lastUsed + g.options.maxPreloaderIdleTime * 1000000 := by
  unfold spawnerGcTime
  have h1 : g.options.maxPreloaderIdleTime * 1000000 < 2 ^ 64 := by omega
  rw [u64_eq_of_lt _ h1, u64_eq_of_lt _ h]

/-- C11, as amended: a GC tick schedules `cleanupSpawner` for a group if and
only if the group's preloader is `cleanable()`, its `maxPreloaderIdleTime` is
not 0 and `now >= spawner.lastUsed + maxPreloaderIdleTime * 1000000` (seconds
turned into the microseconds of `now`; the sum and the product as the code
computes them, which are the exact ones whenever the exact sum is below
`2^64`). This holds of `maybeCleanPreloader` on every group and state, and of
the names of the groups cleaned up by one tick of `realGarbageCollect`. A
cleanable preloader with `maxPreloaderIdleTime == 0` is never cleaned up. -/
theorem preloader_cleanup_rule (pool : Pool) (now : Nat) (gname : String)
    (state : GarbageCollectorState) (group : Group) :
    (cleanedBy (maybeCleanPreloader state group).actions
        = cleanedBy state.actions
          ++ (if group.spawner.cleanable = true ∧ group.options.maxPreloaderIdleTime ≠ 0
                ∧ state.now ≥ spawnerGcTime group
              then [group.name] else []))
      ∧ (gname ∈ cleanedBy (realGarbageCollect pool now).actions
          ↔ ∃ g ∈ pool.allGroups, g.name = gname ∧ g.spawner.cleanable = true
              ∧ g.options.maxPreloaderIdleTime ≠ 0 ∧ now ≥ spawnerGcTime g)
      ∧ (group.spawner.lastUsed + group.options.maxPreloaderIdleTime * 1000000 < 2 ^ 64 →
          spawnerGcTime group
            = group.spawner.lastUsed + group.options.maxPreloaderIdleTime * 1000000)
      ∧ (group.options.maxPreloaderIdleTime = 0 →
          cleanedBy (maybeCleanPreloader state group).actions = cleanedBy state.actions) := by
  have hspec := (maybeCleanPreloader_spec state group).1
  have hiff : (preloaderIsCleaned state.now group = true)
      ↔ (group.spawner.cleanable = true ∧ group.options.maxPreloaderIdleTime ≠ 0
          ∧ state.now ≥ spawnerGcTime group) := by
    simp only [preloaderIsCleaned, decide_eq_true_eq, and_assoc]
  refine ⟨?_, ?_, spawnerGcTime_eq_of_lt group, ?_⟩
  · rw [hspec, cleanedBy_append]
    by_cases hc : preloaderIsCleaned state.now group = true
    · rw [if_pos hc, if_pos (hiff.1 hc)]; rfl
    · rw [if_neg hc, if_neg (fun h => hc (hiff.2 h))]; rfl
  · rw [mem_cleanedBy_realGarbageCollect]
    constructor
    · rintro ⟨g, hg, hn, hc⟩
      simp only [preloaderIsCleaned, decide_eq_true_eq] at hc
      exact ⟨g, hg, hn, hc.1.1, hc.1.2, hc.2⟩
    · rintro ⟨g, hg, hn, h1, h2, h3⟩
      refine ⟨g, hg, hn, ?_⟩
      simp only [preloaderIsCleaned, decide_eq_true_eq]
      exact ⟨⟨h1, h2⟩, h3⟩
  · intro hz
    rw [hspec, cleanedBy_append]
    have hc : ¬ preloaderIsCleaned state.now group = true := fun h => (hiff.1 h).2.1 hz
    rw [if_neg hc]
    simp [cleanedBy]

/-- C11 as stated fails: the only group of `idlePreloaderPool` has a cleanable
preloader with `maxPreloaderIdleTime == 0`, last used at time 0, and the tick at
`now = 5000000` schedules no `cleanupSpawner`, although
`now >= spawner.lastUsed + maxPreloaderIdleTime`. -/
theorem preloader_cleanup_zero_counterexample :
    idlePreloaderPool.allGroups = [idlePreloaderGroup]
      ∧ idlePreloaderGroup.spawner.cleanable = true
      ∧ idlePreloaderGroup.options.maxPreloaderIdleTime = 0
      ∧ 5000000 ≥ idlePreloaderGroup.spawner.lastUsed
          + idlePreloaderGroup.options.maxPreloaderIdleTime * 1000000
      ∧ cleanedBy (realGarbageCollect idlePreloaderPool 5000000).actions = []
      ∧ (maybeCleanPreloader { now := 5000000, nextGcRunTime := 0, actions := [] }
          idlePreloaderGroup).actions = [] := by
  decide

/-! ### C12: the sleep time -/

theorem maybeUpdateNextGcRuntime_next (state : GarbageCollectorState) (c : Nat) :
    (maybeUpdateNextGcRuntime state c).nextGcRunTime = updateNext state.nextGcRunTime c := by
  unfold maybeUpdateNextGcRuntime updateNext
  split <;> rfl

theorem collectProcessesToGc_next (m : Nat) (g : Group) (ps : List Process) :
    ∀ acc : GarbageCollectorState × List Process,
      (collectProcessesToGc m g ps acc).1.nextGcRunTime
        = ((ps.filter (fun p => !canBeGarbageCollected m acc.1.now g p)).map
            (processGcTime m)).foldl updateNext acc.1.nextGcRunTime := by
  induction ps with
  | nil => intro acc; simp [collectProcessesToGc]
  | cons p rest ih =>
    intro acc
    have h := ih (checkWhetherProcessCanBeGarbageCollected m acc.1 g p acc.2)
    simp only [collectProcessesToGc]
    by_cases hc : p.sessions = 0 ∧ acc.1.now ≥ processGcTime m p
        ∧ g.getProcessCount > g.options.minProcesses
    · have hb : canBeGarbageCollected m acc.1.now g p = true := by
        simp [canBeGarbageCollected, hc]
      simp only [checkWhetherProcessCanBeGarbageCollected, if_pos hc] at h ⊢
      simp [h, List.filter_cons, hb]
    · have hb : canBeGarbageCollected m acc.1.now g p = false := by
        simp only [canBeGarbageCollected, decide_eq_false_iff_not]; exact hc
      simp only [checkWhetherProcessCanBeGarbageCollected, if_neg hc,
        maybeUpdateNextGcRuntime_now, maybeUpdateNextGcRuntime_next] at h ⊢
      simp [h, List.filter_cons, hb]

theorem garbageCollectProcessesInGroup_next (m : Nat) (state : GarbageCollectorState)
    (g : Group) :
    (garbageCollectProcessesInGroup m state g).1.nextGcRunTime
      = (retainedGcTimes m state.now g).foldl updateNext state.nextGcRunTime := by
  have h := collectProcessesToGc_next m g g.enabledProcesses (state, [])
  simp only [garbageCollectProcessesInGroup, retainedGcTimes]
  exact h

theorem preloaderIsCandidate_congr (now : Nat) (g h : Group) (ho : h.options = g.options)
    (hs : h.spawner = g.spawner) :
    preloaderIsCandidate now h = preloaderIsCandidate now g := by
  simp [preloaderIsCandidate, ho, hs, spawnerGcTime_congr g h ho hs]

theorem maybeCleanPreloader_next (state : GarbageCollectorState) (g : Group) :
    (maybeCleanPreloader state g).nextGcRunTime
      = (if preloaderIsCandidate state.now g = true then [spawnerGcTime g] else []).foldl
          updateNext state.nextGcRunTime := by
  unfold maybeCleanPreloader
  by_cases h1 : g.spawner.cleanable = true ∧ g.options.maxPreloaderIdleTime ≠ 0
  · by_cases h2 : state.now ≥ spawnerGcTime g
    · have hb : preloaderIsCandidate state.now g = false := by
        simp only [preloaderIsCandidate, decide_eq_false_iff_not]; exact fun h => h.2 h2
      simp [if_pos h1, if_pos h2, hb]
    · have hb : preloaderIsCandidate state.now g = true := by
        simp only [preloaderIsCandidate, decide_eq_true_eq]; exact ⟨h1, h2⟩
      simp [if_pos h1, if_neg h2, hb, maybeUpdateNextGcRuntime_next]
  · have hb : preloaderIsCandidate state.now g = false := by
      simp only [preloaderIsCandidate, decide_eq_false_iff_not]; exact fun h => h1 h.1
    simp [if_neg h1, hb]

theorem collectGroup_next (m : Nat) (state : GarbageCollectorState) (g : Group) :
    (collectGroup m state g).1.nextGcRunTime
      = (groupCandidates m state.now g).foldl updateNext state.nextGcRunTime := by
  unfold collectGroup
  by_cases hm : m > 0
  · have hg := garbageCollectProcessesInGroup_spec m state g
    have hn := garbageCollectProcessesInGroup_next m state g
    have hp := maybeCleanPreloader_next (garbageCollectProcessesInGroup m state g).1
      (garbageCollectProcessesInGroup m state g).2
    simp only [if_pos hm]
    rw [hp, hg.2.1, hn, preloaderIsCandidate_congr state.now g _ hg.2.2.2.1 hg.2.2.2.2,
      spawnerGcTime_congr g _ hg.2.2.2.1 hg.2.2.2.2]
    simp [groupCandidates, hm, List.foldl_append]
  · have hp := maybeCleanPreloader_next state g
    simp only [if_neg hm]
    rw [hp]
    simp [groupCandidates, hm]

theorem collectGroups_next (m : Nat) (gs : List Group) :
    ∀ state : GarbageCollectorState,
      (collectGroups m gs state).1.nextGcRunTime
        = (gs.flatMap (groupCandidates m state.now)).foldl updateNext state.nextGcRunTime := by
  induction gs with
  | nil => intro state; simp [collectGroups]
  | cons g rest ih =>
    intro state
    have hg := collectGroup_next m state g
    have hr := ih (collectGroup m state g).1
    simp only [collectGroups]
    rw [hr, hg, (collectGroup_spec m state g).2]
    simp [List.flatMap_cons, List.foldl_append]

theorem collectSuperGroups_next (m : Nat) (sgs : List SuperGroup) :
    ∀ state : GarbageCollectorState,
      (collectSuperGroups m sgs state).1.nextGcRunTime
        = ((sgs.flatMap SuperGroup.groups).flatMap (groupCandidates m state.now)).foldl
            updateNext state.nextGcRunTime := by
  induction sgs with
  | nil => intro state; simp [collectSuperGroups]
  | cons sg rest ih =>
    intro state
    have hg := collectGroups_next m sg.groups state
    have hr := ih (collectGroups m sg.groups state).1
    simp only [collectSuperGroups]
    rw [hr, hg, (collectGroups_spec m sg.groups state).2]
    simp [List.flatMap_cons, List.flatMap_append, List.foldl_append]

/-- The `nextGcRunTime` of one tick: the candidates of all groups, in the order
of the walk, passed to `maybeUpdateNextGcRuntime` one after the other from 0. -/
theorem realGarbageCollect_next (pool : Pool) (now : Nat) :
    (realGarbageCollect pool now).nextGcRunTime
      = (pool.allGroups.flatMap (groupCandidates pool.maxIdleTime now)).foldl updateNext 0 := by
  have h := collectSuperGroups_next pool.maxIdleTime pool.superGroups
    { now := now, nextGcRunTime := 0, actions := [] }
  simp only [realGarbageCollect, Pool.allGroups]
  exact h

/-- The `sleepTime` of one tick, from its `nextGcRunTime` (lines 148-157). -/
theorem realGarbageCollect_sleepTime (pool : Pool) (now : Nat) :
    (realGarbageCollect pool now).sleepTime
      = if (realGarbageCollect pool now).nextGcRunTime = 0
            ∨ (realGarbageCollect pool now).nextGcRunTime ≤ now then
          if pool.maxIdleTime = 0 then 10 * 60 * 1000000 else pool.maxIdleTime
        else (realGarbageCollect pool now).nextGcRunTime - now := by
  have h := (collectSuperGroups_spec pool.maxIdleTime pool.superGroups
    { now := now, nextGcRunTime := 0, actions := [] }).2
  simp only [realGarbageCollect, h]

theorem updateNext_pos (cur c : Nat) (hcur : cur ≠ 0) (hc : c ≠ 0) :
    updateNext cur c ≠ 0 ∧ updateNext cur c ≤ cur ∧ updateNext cur c ≤ c
      ∧ (updateNext cur c = cur ∨ updateNext cur c = c) := by
  unfold updateNext
  by_cases h : c < cur
  · rw [if_pos (Or.inr h)]
    exact ⟨hc, by omega, le_refl _, Or.inr rfl⟩
  · rw [if_neg (by intro h1; rcases h1 with h1 | h1 <;> omega)]
    exact ⟨hcur, le_refl _, by omega, Or.inl rfl⟩

theorem foldl_updateNext_mem (cs : List Nat) :
    ∀ cur : Nat, cs.foldl updateNext cur = cur ∨ cs.foldl updateNext cur ∈ cs := by
  induction cs with
  | nil => intro cur; exact Or.inl rfl
  | cons c rest ih =>
    intro cur
    simp only [List.foldl_cons, List.mem_cons]
    rcases ih (updateNext cur c) with h | h
    · rw [h]
      unfold updateNext
      split
      · exact Or.inr (Or.inl rfl)
      · exact Or.inl rfl
    · exact Or.inr (Or.inr h)

theorem foldl_updateNext_pos (cs : List Nat) :
    ∀ cur : Nat, cur ≠ 0 → (∀ c ∈ cs, c ≠ 0) →
      cs.foldl updateNext cur ≠ 0 ∧ cs.foldl updateNext cur ≤ cur
        ∧ ∀ c ∈ cs, cs.foldl updateNext cur ≤ c := by
  induction cs with
  | nil => intro cur hcur _; exact ⟨hcur, le_refl _, by simp⟩
  | cons c rest ih =>
    intro cur hcur hnz
    have hc : c ≠ 0 := hnz c (List.mem_cons_self _ _)
    obtain ⟨h1, h2, h3, _⟩ := updateNext_pos cur c hcur hc
    obtain ⟨i1, i2, i3⟩ := ih (updateNext cur c) h1
      (fun x hx => hnz x (List.mem_cons_of_mem _ hx))
    simp only [List.foldl_cons]
    refine ⟨i1, le_trans i2 h2, ?_⟩
    intro x hx
    rcases List.mem_cons.1 hx with rfl | hx
    · exact le_trans i2 h3
    · exact i3 x hx

/-- From 0, and with no candidate equal to 0, the updates leave the least
candidate. -/
theorem foldl_updateNext_zero (cs : List Nat) (hne : cs ≠ []) (hnz : ∀ c ∈ cs, c ≠ 0) :
    cs.foldl updateNext 0 ∈ cs ∧ cs.foldl updateNext 0 ≠ 0
      ∧ ∀ c ∈ cs, cs.foldl updateNext 0 ≤ c := by
  cases cs with
  | nil => exact absurd rfl hne
  | cons c rest =>
    have hc : c ≠ 0 := hnz c (List.mem_cons_self _ _)
    have h0 : updateNext 0 c = c := by simp [updateNext]
    simp only [List.foldl_cons, h0]
    obtain ⟨i1, i2, i3⟩ := foldl_updateNext_pos rest c hc
      (fun x hx => hnz x (List.mem_cons_of_mem _ hx))
    refine ⟨?_, i1, ?_⟩
    · rcases foldl_updateNext_mem rest c with h | h
      · rw [h]; exact List.mem_cons_self _ _
      · exact List.mem_cons_of_mem _ h
    · intro x hx
      rcases List.mem_cons.1 hx with rfl | hx
      · exact i2
      · exact i3 x hx

theorem flatMap_groupCandidates (pool : Pool) (now : Nat)
    (hpre : ∀ g ∈ pool.allGroups, preloaderIsCandidate now g = false) :
    pool.allGroups.flatMap (groupCandidates pool.maxIdleTime now)
      = if pool.maxIdleTime > 0 then pool.retainedCandidates now else [] := by
  unfold Pool.retainedCandidates
  generalize pool.allGroups = gs at hpre ⊢
  induction gs with
  | nil => simp
  | cons g rest ih =>
    have hg := hpre g (List.mem_cons_self _ _)
    have hr := ih (fun x hx => hpre x (List.mem_cons_of_mem _ hx))
    simp only [List.flatMap_cons, hr, groupCandidates, hg]
    by_cases hm : pool.maxIdleTime > 0 <;> simp [hm]

/-- C12, as amended: for every pool state with no preloader candidate, the
sleep time returned by `realGarbageCollect` equals `m - now`, where `m` is the
minimum of `lastUsed + maxIdleTime` over the retained (not detached) enabled
workers, when `maxIdleTime > 0`, at least one worker is retained and
`lastUsed + maxIdleTime` of every retained worker lies strictly after `now`; it
equals `maxIdleTime` when `maxIdleTime > 0` and `lastUsed + maxIdleTime` of some
retained worker is not after `now` (none being 0), and when no retained worker
has one after `now`; and it equals `10 * 60 * 1000000` microseconds when
`maxIdleTime == 0`. The sums are those the code computes; none is 0 when none
wraps. -/
theorem sleep_time (pool : Pool) (now : Nat)
    (hpre : ∀ g ∈ pool.allGroups, preloaderIsCandidate now g = false) :
    (pool.maxIdleTime > 0 → pool.retainedCandidates now ≠ [] →
        (∀ c ∈ pool.retainedCandidates now, now < c) →
        ∃ m ∈ pool.retainedCandidates now,
          (∀ c ∈ pool.retainedCandidates now, m ≤ c)
            ∧ (realGarbageCollect pool now).sleepTime = m - now)
      ∧ (pool.maxIdleTime > 0 → (∀ c ∈ pool.retainedCandidates now, c ≠ 0) →
          (∃ c ∈ pool.retainedCandidates now, c ≤ now) →
          (realGarbageCollect pool now).sleepTime = pool.maxIdleTime)
      ∧ (pool.maxIdleTime > 0 → (∀ c ∈ pool.retainedCandidates now, c ≤ now) →
          (realGarbageCollect pool now).sleepTime = pool.maxIdleTime)
      ∧ (pool.maxIdleTime = 0 →
          (realGarbageCollect pool now).sleepTime = 10 * 60 * 1000000)
      ∧ (pool.maxIdleTime > 0 →
          (∀ g ∈ pool.allGroups, ∀ p ∈ g.enabledProcesses,
            p.lastUsed + pool.maxIdleTime < 2 ^ 64) →
          ∀ c ∈ pool.retainedCandidates now, c ≠ 0) := by
  have hnext := realGarbageCollect_next pool now
  rw [flatMap_groupCandidates pool now hpre] at hnext
  have hsleep := realGarbageCollect_sleepTime pool now
  refine ⟨?_, ?_, ?_, ?_, ?_⟩
  · intro hm hne hfut
    rw [if_pos hm] at hnext
    have hnz : ∀ c ∈ pool.retainedCandidates now, c ≠ 0 := fun c hc => by
      have := hfut c hc; omega
    obtain ⟨h1, h2, h3⟩ := foldl_updateNext_zero _ hne hnz
    rw [← hnext] at h1 h2 h3
    refine ⟨_, h1, h3, ?_⟩
    have hlt := hfut _ h1
    rw [hsleep, if_neg (by intro h; rcases h with h | h <;> omega)]
  · intro hm hnz hpast
    rw [if_pos hm] at hnext
    obtain ⟨c, hc, hle⟩ := hpast
    have hne : pool.retainedCandidates now ≠ [] := List.ne_nil_of_mem hc
    obtain ⟨_, _, h3⟩ := foldl_updateNext_zero _ hne hnz
    rw [← hnext] at h3
    have := h3 c hc
    rw [hsleep, if_pos (Or.inr (by omega)), if_neg (by omega)]
  · intro hm hpast
    rw [if_pos hm] at hnext
    have hcase : (realGarbageCollect pool now).nextGcRunTime = 0
        ∨ (realGarbageCollect pool now).nextGcRunTime ≤ now := by
      rcases foldl_updateNext_mem (pool.retainedCandidates now) 0 with h | h
      · exact Or.inl (by rw [hnext, h])
      · rw [← hnext] at h
        exact Or.inr (hpast _ h)
    rw [hsleep, if_pos hcase, if_neg (by omega)]
  · intro hm
    have hz : ¬ pool.maxIdleTime > 0 := by omega
    rw [if_neg hz] at hnext
    simp only [List.foldl_nil] at hnext
    rw [hsleep, if_pos (Or.inl hnext), if_pos hm]
  · intro hm hwrap c hc
    simp only [Pool.retainedCandidates, retainedGcTimes, List.mem_flatMap, List.mem_map,
      List.mem_filter] at hc
    obtain ⟨g, hg, p, ⟨hp, _⟩, rfl⟩ := hc
    have := hwrap g hg p hp
    rw [processGcTime, u64_eq_of_lt _ this]
    omega

/-- Witness of `sleep_time`: `freshPool` at `now = 100`; both workers are
retained, with `lastUsed + maxIdleTime` of 105 and 103, and the sleep time is
3. -/
theorem sleep_time_witness :
    (∀ g ∈ freshPool.allGroups, preloaderIsCandidate 100 g = false)
      ∧ freshPool.retainedCandidates 100 = [105, 103]
      ∧ (realGarbageCollect freshPool 100).sleepTime = 3
      ∧ ∃ m ∈ freshPool.retainedCandidates 100,
          (∀ c ∈ freshPool.retainedCandidates 100, m ≤ c)
            ∧ (realGarbageCollect freshPool 100).sleepTime = m - 100 :=
  ⟨by decide, by decide, by decide,
    (sleep_time freshPool 100 (by decide)).1 (by decide) (by decide) (by decide)⟩

/-- C12 as stated fails: in `busyAndFreshPool` (`maxIdleTime = 10`, no
preloader candidate) at `now = 100` no worker is detached; worker 1 is busy
with `lastUsed + maxIdleTime = 10`, already in the past, and worker 2 has
`lastUsed + maxIdleTime = 105`, the only one strictly after `now`. The claimed
sleep time is `105 - 100 = 5`; `realGarbageCollect` returns `maxIdleTime`,
10, because `nextGcRunTime` is 10. -/
theorem sleep_time_past_candidate_counterexample :
    busyAndFreshPool.maxIdleTime = 10
      ∧ (∀ g ∈ busyAndFreshPool.allGroups, preloaderIsCandidate 100 g = false)
      ∧ detachedBy (realGarbageCollect busyAndFreshPool 100).actions = []
      ∧ busyAndFreshPool.retainedCandidates 100 = [10, 105]
      ∧ (busyAndFreshPool.retainedCandidates 100).filter (fun c => decide (100 < c)) = [105]
      ∧ (realGarbageCollect busyAndFreshPool 100).nextGcRunTime = 10
      ∧ (realGarbageCollect busyAndFreshPool 100).sleepTime = 10
      ∧ (realGarbageCollect busyAndFreshPool 100).sleepTime ≠ 105 - 100 := by
  decide

end ApplicationPool2

/-! ## Part 2, proofs -/

namespace ApplicationPool

theorem bind_apply {α β : Type} (m : ChannelM α) (f : α → ChannelM β) (ch : MessageChannel) :
    (m >>= f) ch = ChannelM.bind m f ch := rfl

theorem pure_apply {α : Type} (a : α) (ch : MessageChannel) :
    (pure a : ChannelM α) ch = (Outcome.returns a, ch) := rfl

theorem bind_returns {α β : Type} (m : ChannelM α) (f : α → ChannelM β)
    (ch ch1 : MessageChannel) (a : α) (h : m ch = (Outcome.returns a, ch1)) :
    (m >>= f) ch = f a ch1 := by
  simp [bind_apply, ChannelM.bind, h]

theorem bind_throws {α β : Type} (m : ChannelM α) (f : α → ChannelM β)
    (ch ch1 : MessageChannel) (e : Exception) (h : m ch = (Outcome.throws e, ch1)) :
    (m >>= f) ch = (Outcome.throws e, ch1) := by
  simp [bind_apply, ChannelM.bind, h]

theorem bind_undefined {α β : Type} (m : ChannelM α) (f : α → ChannelM β)
    (ch ch1 : MessageChannel) (h : m ch = (Outcome.undefined, ch1)) :
    (m >>= f) ch = (Outcome.undefined, ch1) := by
  simp [bind_apply, ChannelM.bind, h]

theorem bind_outOfFuel {α β : Type} (m : ChannelM α) (f : α → ChannelM β)
    (ch ch1 : MessageChannel) (h : m ch = (Outcome.outOfFuel, ch1)) :
    (m >>= f) ch = (Outcome.outOfFuel, ch1) := by
  simp [bind_apply, ChannelM.bind, h]

theorem close_connected (ch : MessageChannel) : ch.close.connected = false := by
  unfold MessageChannel.close MessageChannel.connected
  by_cases h : ch.fd = -1 <;> simp [h]

theorem connected_iff (ch : MessageChannel) : ch.connected = true ↔ ch.fd ≠ -1 := by
  simp [MessageChannel.connected]

theorem triple_weaken {α : Type} {m : ChannelM α} {E F : Exception → Bool → Prop}
    (h : Triple m E) (hw : ∀ e c, E e c → F e c) : Triple m F :=
  fun ch hfd => ⟨(h ch hfd).1, fun e ch1 he => hw e _ ((h ch hfd).2 e ch1 he)⟩

theorem triple_bind {α β : Type} {m : ChannelM α} {f : α → ChannelM β}
    {E : Exception → Bool → Prop} (hm : Triple m E) (hf : ∀ a, Triple (f a) E) :
    Triple (m >>= f) E := by
  intro ch hfd
  rcases hr : m ch with ⟨r, ch1⟩
  cases r with
  | returns a =>
    rw [bind_returns m f ch ch1 a hr]
    exact hf a ch1 ((hm ch hfd).1 a ch1 hr)
  | throws e =>
    rw [bind_throws m f ch ch1 e hr]
    refine ⟨fun a ch2 h => by simp at h, fun e2 ch2 h => ?_⟩
    simp only [Prod.mk.injEq, Outcome.throws.injEq] at h
    obtain ⟨rfl, rfl⟩ := h
    exact (hm ch hfd).2 e ch1 hr
  | undefined =>
    rw [bind_undefined m f ch ch1 hr]
    exact ⟨fun a ch2 h => by simp at h, fun e2 ch2 h => by simp at h⟩
  | outOfFuel =>
    rw [bind_outOfFuel m f ch ch1 hr]
    exact ⟨fun a ch2 h => by simp at h, fun e2 ch2 h => by simp at h⟩

theorem triple_pure {α : Type} (a : α) (E : Exception → Bool → Prop) :
    Triple (pure a : ChannelM α) E := by
  intro ch hfd
  refine ⟨fun b ch1 h => ?_, fun e ch1 h => by simp [pure_apply] at h⟩
  simp only [pure_apply, Prod.mk.injEq] at h
  rw [← h.2]; exact hfd

theorem triple_raise {α : Type} (e : Exception) (E : Exception → Bool → Prop)
    (h : E e true) : Triple (raise e : ChannelM α) E := by
  intro ch hfd
  refine ⟨fun b ch1 h1 => by simp [raise] at h1, fun e1 ch1 h1 => ?_⟩
  simp only [raise, Prod.mk.injEq, Outcome.throws.injEq] at h1
  obtain ⟨rfl, rfl⟩ := h1
  rw [(connected_iff ch).2 hfd]; exact h

theorem triple_undefinedBehaviour {α : Type} (E : Exception → Bool → Prop) :
    Triple (undefinedBehaviour : ChannelM α) E := by
  intro ch hfd
  exact ⟨fun b ch1 h1 => by simp [undefinedBehaviour] at h1,
    fun e1 ch1 h1 => by simp [undefinedBehaviour] at h1⟩

theorem triple_subscript (args : List String) (i : Nat) (E : Exception → Bool → Prop) :
    Triple (subscript args i) E := by
  unfold subscript
  split
  · exact triple_pure _ E
  · exact triple_undefinedBehaviour E

/-- After `disconnect`, whatever is thrown is thrown on a closed channel. -/
theorem triple_disconnect_raise {α : Type} (e : Exception) (E : Exception → Bool → Prop)
    (h : E e false) : Triple (do disconnect; raise e : ChannelM α) E := by
  intro ch hfd
  have hrun : (do disconnect; raise e : ChannelM α) ch = (Outcome.throws e, ch.close) := rfl
  rw [hrun]
  refine ⟨fun b ch1 h1 => by simp at h1, fun e1 ch1 h1 => ?_⟩
  simp only [Prod.mk.injEq, Outcome.throws.injEq] at h1
  obtain ⟨rfl, rfl⟩ := h1
  rw [close_connected]; exact h

/-- A `try` block whose body throws only on a connected channel. -/
theorem triple_tryCatch {α : Type} {body : ChannelM α} {handler : Exception → ChannelM α}
    {E1 E2 : Exception → Bool → Prop} (hb : Triple body E1)
    (hconn : ∀ e c, E1 e c → c = true)
    (hh : ∀ e, E1 e true → Triple (handler e) E2) :
    Triple (tryCatch body handler) E2 := by
  intro ch hfd
  rcases hr : body ch with ⟨r, ch1⟩
  cases r with
  | returns a =>
    have : tryCatch body handler ch = (Outcome.returns a, ch1) := by
      simp [tryCatch, hr]
    rw [this]
    refine ⟨fun b ch2 h => ?_, fun e2 ch2 h => by simp at h⟩
    simp only [Prod.mk.injEq] at h
    rw [← h.2]; exact (hb ch hfd).1 a ch1 hr
  | throws e =>
    have : tryCatch body handler ch = handler e ch1 := by
      simp [tryCatch, hr]
    rw [this]
    have hE := (hb ch hfd).2 e ch1 hr
    have hc := hconn e _ hE
    rw [hc] at hE
    exact hh e hE ch1 ((connected_iff ch1).1 hc)
  | undefined =>
    have : tryCatch body handler ch = (Outcome.undefined, ch1) := by
      simp [tryCatch, hr]
    rw [this]
    exact ⟨fun a ch2 h => by simp at h, fun e2 ch2 h => by simp at h⟩
  | outOfFuel =>
    have : tryCatch body handler ch = (Outcome.outOfFuel, ch1) := by
      simp [tryCatch, hr]
    rw [this]
    exact ⟨fun a ch2 h => by simp at h, fun e2 ch2 h => by simp at h⟩

theorem toException_isReported (f : ChannelFault) : f.toException.isReported = false := by
  cases f <;> rfl

theorem triple_nextWrite (op : Op) : Triple (fun ch => ch.nextWrite op) ChannelOnly := by
  intro ch hfd
  refine ⟨fun a ch1 h => ?_, fun e ch1 h => ?_⟩
  · simp only [MessageChannel.nextWrite, if_neg hfd] at h
    split at h <;> simp only [Prod.mk.injEq, reduceCtorEq, false_and] at h <;>
      (rw [← h.2]; exact hfd)
  · simp only [MessageChannel.nextWrite, if_neg hfd] at h
    split at h <;> simp only [Prod.mk.injEq, reduceCtorEq, false_and,
      Outcome.throws.injEq] at h
    obtain ⟨rfl, rfl⟩ := h
    exact ⟨(connected_iff _).2 hfd, toException_isReported _⟩

theorem triple_write (args : List String) : Triple (write args) ChannelOnly :=
  triple_nextWrite _

theorem triple_writeScalar (data : String) : Triple (writeScalar data) ChannelOnly :=
  triple_nextWrite _

theorem triple_read : Triple read ChannelOnly := by
  intro ch hfd
  refine ⟨fun a ch1 h => ?_, fun e ch1 h => ?_⟩
  · simp only [read, if_neg hfd] at h
    split at h <;> simp only [Prod.mk.injEq, reduceCtorEq, false_and] at h <;>
      (rw [← h.2]; exact hfd)
  · simp only [read, if_neg hfd] at h
    split at h <;> simp only [Prod.mk.injEq, reduceCtorEq, false_and,
      Outcome.throws.injEq] at h <;> obtain ⟨rfl, rfl⟩ := h
    · exact ⟨(connected_iff _).2 hfd, toException_isReported _⟩
    · exact ⟨(connected_iff _).2 hfd, rfl⟩

theorem triple_readScalar : Triple readScalar ChannelOnly := by
  intro ch hfd
  refine ⟨fun a ch1 h => ?_, fun e ch1 h => ?_⟩
  · simp only [readScalar, if_neg hfd] at h
    split at h <;> simp only [Prod.mk.injEq, reduceCtorEq, false_and] at h <;>
      (rw [← h.2]; exact hfd)
  · simp only [readScalar, if_neg hfd] at h
    split at h <;> simp only [Prod.mk.injEq, reduceCtorEq, false_and,
      Outcome.throws.injEq] at h <;> obtain ⟨rfl, rfl⟩ := h
    · exact ⟨(connected_iff _).2 hfd, toException_isReported _⟩
    · exact ⟨(connected_iff _).2 hfd, rfl⟩

theorem triple_readFileDescriptor : Triple readFileDescriptor ChannelOnly := by
  intro ch hfd
  refine ⟨fun a ch1 h => ?_, fun e ch1 h => ?_⟩
  · simp only [readFileDescriptor, if_neg hfd] at h
    split at h <;> simp only [Prod.mk.injEq, reduceCtorEq, false_and] at h
    rw [← h.2]; exact hfd
  · simp only [readFileDescriptor, if_neg hfd] at h
    split at h <;> simp only [Prod.mk.injEq, reduceCtorEq, false_and,
      Outcome.throws.injEq] at h <;> obtain ⟨rfl, rfl⟩ := h
    · exact ⟨(connected_iff _).2 hfd, rfl⟩
    · exact ⟨(connected_iff _).2 hfd, toException_isReported _⟩
    · exact ⟨(connected_iff _).2 hfd, rfl⟩

theorem triple_checkSecurityResponse : Triple checkSecurityResponse SecurityOrChannel := by
  unfold checkSecurityResponse
  apply triple_bind (triple_weaken triple_read (fun e c h => ⟨h.1, fun hr => by
    rw [h.2] at hr; exact absurd hr (by decide)⟩))
  intro r
  cases r with
  | none => exact triple_pure _ _
  | some args =>
    dsimp only
    apply triple_bind (triple_subscript _ _ _)
    intro a0
    split
    · apply triple_bind (triple_subscript _ _ _)
      intro a1
      exact triple_raise _ _ ⟨rfl, fun _ => rfl⟩
    · split
      · exact triple_raise _ _ ⟨rfl, fun h => by simp [Exception.isReported] at h⟩
      · exact triple_pure _ _

theorem triple_disconnectUnlessSecurity {α : Type} (e : Exception) :
    Triple (disconnectUnlessSecurity e : ChannelM α) SecurityPolicy := by
  cases e with
  | SecurityException m => exact triple_raise _ _ (by simp [SecurityPolicy, Exception.isSecurity])
  | SystemException b c =>
    exact triple_disconnect_raise _ _ (by simp [SecurityPolicy, Exception.isSecurity])
  | IOException m =>
    exact triple_disconnect_raise _ _ (by simp [SecurityPolicy, Exception.isSecurity])
  | SpawnException m p =>
    exact triple_disconnect_raise _ _ (by simp [SecurityPolicy, Exception.isSecurity])
  | BusyException m =>
    exact triple_disconnect_raise _ _ (by simp [SecurityPolicy, Exception.isSecurity])
  | RuntimeException m =>
    exact triple_disconnect_raise _ _ (by simp [SecurityPolicy, Exception.isSecurity])
  | TimeoutException m =>
    exact triple_disconnect_raise _ _ (by simp [SecurityPolicy, Exception.isSecurity])
  | thread_interrupted =>
    exact triple_disconnect_raise _ _ (by simp [SecurityPolicy, Exception.isSecurity])

theorem triple_guarded {α : Type} (body : ChannelM α) (hb : Triple body StaysConnected) :
    Triple (tryCatch body disconnectUnlessSecurity) SecurityPolicy :=
  triple_tryCatch hb (fun _ _ h => h) (fun e _ => triple_disconnectUnlessSecurity e)

theorem triple_write_connected (args : List String) : Triple (write args) StaysConnected :=
  triple_weaken (triple_write args) (fun _ _ h => h.1)

theorem triple_checkSecurityResponse_connected :
    Triple checkSecurityResponse StaysConnected :=
  triple_weaken triple_checkSecurityResponse (fun _ _ h => h.1)

theorem triple_readNumber : Triple readNumber StaysConnected := by
  unfold readNumber
  apply triple_bind (triple_weaken triple_read (fun _ _ h => h.1))
  intro args
  apply triple_bind (triple_subscript _ _ _)
  intro a0
  exact triple_pure _ _

/-- The body `write(command); checkSecurityResponse();` of `clear`,
`setMaxIdleTime`, `setMax` and `setMaxPerApp`. -/
theorem triple_command (args : List String) :
    Triple (do write args
               let _ ← checkSecurityResponse
               pure () : ChannelM Unit) StaysConnected := by
  apply triple_bind (triple_write_connected args)
  intro _
  apply triple_bind triple_checkSecurityResponse_connected
  intro _
  exact triple_pure _ _

theorem call_connected {α : Type} (c : Client) (ch : MessageChannel) (body : ChannelM α)
    (hc : c.data = some ch) (hfd : ch.fd ≠ -1) :
    c.call body = ((body ch).1, { data := some (body ch).2 }) := by
  have hconn : ch.connected = true := (connected_iff ch).2 hfd
  simp [Client.call, Client.checkConnection, hc, hconn]

theorem isConnected_data (c : Client) (h : c.isConnected = true) :
    ∃ ch, c.data = some ch ∧ ch.fd ≠ -1 := by
  unfold Client.isConnected at h
  cases hd : c.data with
  | none => simp [hd] at h
  | some ch =>
    simp only [hd] at h
    exact ⟨ch, rfl, (connected_iff ch).1 h⟩

/-- A method of a connected client whose body satisfies a policy: the policy
holds of the exception thrown and of the client afterwards. -/
theorem call_policy {α : Type} (c : Client) (body : ChannelM α)
    (E : Exception → Bool → Prop) (hb : Triple body E) (hconn : c.isConnected = true)
    (e : Exception) (h : (c.call body).1 = Outcome.throws e) :
    E e (c.call body).2.isConnected := by
  obtain ⟨ch, hc, hfd⟩ := isConnected_data c hconn
  rw [call_connected c ch body hc hfd] at h ⊢
  simp only at h
  have := (hb ch hfd).2 e (body ch).2 (Prod.ext h rfl)
  simpa [Client.isConnected] using this

theorem getPolicy_closed (e : Exception) (h : e.isReported = false) : GetPolicy e false := by
  intro _
  simp [h]

theorem getPolicy_reported (e : Exception) (h : e.isReported = true) : GetPolicy e true := by
  intro _
  simp [h]

theorem triple_disconnectAndRethrow {α : Type} (e : Exception) (h : e.isReported = false) :
    Triple (disconnectAndRethrow e : ChannelM α) GetPolicy :=
  triple_disconnect_raise _ _ (getPolicy_closed e h)

theorem triple_getWriteHandler {α : Type} (e : Exception) (h : e.isReported = false) :
    Triple (getWriteHandler e : ChannelM α) GetPolicy := by
  cases e with
  | SystemException b c => exact triple_disconnect_raise _ _ (getPolicy_closed _ rfl)
  | IOException m => exact triple_disconnect_raise _ _ (getPolicy_closed _ rfl)
  | SecurityException m => exact absurd h (by simp [Exception.isReported])
  | SpawnException m p => exact absurd h (by simp [Exception.isReported])
  | BusyException m => exact absurd h (by simp [Exception.isReported])
  | RuntimeException m => exact triple_disconnect_raise _ _ (getPolicy_closed _ rfl)
  | TimeoutException m => exact triple_disconnect_raise _ _ (getPolicy_closed _ rfl)
  | thread_interrupted => exact triple_disconnect_raise _ _ (getPolicy_closed _ rfl)

theorem triple_getReadHandler {α : Type} (e : Exception) (h : e.isReported = false) :
    Triple (getReadHandler e : ChannelM α) GetPolicy := by
  cases e with
  | SystemException b c => exact triple_disconnect_raise _ _ (getPolicy_closed _ rfl)
  | IOException m => exact triple_disconnect_raise _ _ (getPolicy_closed _ rfl)
  | SecurityException m => exact absurd h (by simp [Exception.isReported])
  | SpawnException m p => exact absurd h (by simp [Exception.isReported])
  | BusyException m => exact absurd h (by simp [Exception.isReported])
  | RuntimeException m => exact triple_disconnect_raise _ _ (getPolicy_closed _ rfl)
  | TimeoutException m => exact triple_disconnect_raise _ _ (getPolicy_closed _ rfl)
  | thread_interrupted => exact triple_disconnect_raise _ _ (getPolicy_closed _ rfl)

theorem triple_getEnvironmentHandler {α : Type} (e : Exception) (h : e.isReported = false) :
    Triple (getEnvironmentHandler e : ChannelM α) GetPolicy := by
  cases e with
  | SystemException b c => exact triple_disconnect_raise _ _ (getPolicy_closed _ rfl)
  | IOException m => exact triple_disconnect_raise _ _ (getPolicy_closed _ rfl)
  | SecurityException m => exact absurd h (by simp [Exception.isReported])
  | SpawnException m p => exact absurd h (by simp [Exception.isReported])
  | BusyException m => exact absurd h (by simp [Exception.isReported])
  | RuntimeException m => exact triple_disconnect_raise _ _ (getPolicy_closed _ rfl)
  | TimeoutException m => exact triple_disconnect_raise _ _ (getPolicy_closed _ rfl)
  | thread_interrupted => exact triple_disconnect_raise _ _ (getPolicy_closed _ rfl)

theorem triple_getSecurityHandler {α : Type} (e : Exception)
    (h : e.isReported = true → e.isSecurity = true) :
    Triple (getSecurityHandler e : ChannelM α) GetPolicy := by
  cases e with
  | SystemException b c => exact triple_disconnect_raise _ _ (getPolicy_closed _ rfl)
  | IOException m => exact triple_disconnect_raise _ _ (getPolicy_closed _ rfl)
  | SecurityException m => exact triple_raise _ _ (getPolicy_reported _ rfl)
  | SpawnException m p => exact absurd (h rfl) (by simp [Exception.isSecurity])
  | BusyException m => exact absurd (h rfl) (by simp [Exception.isSecurity])
  | RuntimeException m => exact triple_disconnect_raise _ _ (getPolicy_closed _ rfl)
  | TimeoutException m => exact triple_disconnect_raise _ _ (getPolicy_closed _ rfl)
  | thread_interrupted => exact triple_disconnect_raise _ _ (getPolicy_closed _ rfl)

theorem triple_getReply (options : PoolOptions) (fuel : Nat) :
    Triple (getReply options fuel) GetPolicy := by
  induction fuel with
  | zero =>
    intro ch _
    exact ⟨fun a ch1 h => by simp [getReply] at h, fun e ch1 h => by simp [getReply] at h⟩
  | succ n ih =>
    unfold getReply
    apply triple_bind
      (triple_tryCatch triple_read (fun _ _ h => h.1) (fun e h => triple_getReadHandler e h.2))
    intro result
    cases result with
    | none => exact triple_disconnect_raise _ _ (getPolicy_closed _ rfl)
    | some args =>
      dsimp only
      apply triple_bind (triple_subscript _ _ _)
      intro a0
      split
      · apply triple_bind
          (triple_tryCatch (triple_writeScalar _) (fun _ _ h => h.1)
            (fun e h => triple_getEnvironmentHandler e h.2))
        intro _
        exact ih
      · exact triple_pure _ _

/-- After `disconnect`, `throw IOException(args[1])` (lines 566-570). -/
theorem triple_disconnect_subscript_raise (args : List String) :
    Triple (do disconnect
               let a1 ← subscript args 1
               raise (Exception.IOException a1) : ChannelM RemoteSession) GetPolicy := by
  intro ch _
  cases h1 : args[1]? with
  | none =>
    have hrun : (do disconnect
                    let a1 ← subscript args 1
                    raise (Exception.IOException a1) : ChannelM RemoteSession) ch
        = (Outcome.undefined, ch.close) := by
      simp [bind_apply, ChannelM.bind, disconnect, subscript, h1, undefinedBehaviour]
    rw [hrun]
    exact ⟨fun a ch1 h => by simp at h, fun e ch1 h => by simp at h⟩
  | some a1 =>
    have hrun : (do disconnect
                    let a1 ← subscript args 1
                    raise (Exception.IOException a1) : ChannelM RemoteSession) ch
        = (Outcome.throws (Exception.IOException a1), ch.close) := by
      simp [bind_apply, ChannelM.bind, disconnect, subscript, h1, raise, pure_apply]
    rw [hrun]
    refine ⟨fun a ch1 h => by simp at h, fun e ch1 h => ?_⟩
    simp only [Prod.mk.injEq, Outcome.throws.injEq] at h
    obtain ⟨rfl, rfl⟩ := h
    rw [close_connected]
    exact getPolicy_closed _ rfl

theorem triple_getDispatch (args : List String) : Triple (getDispatch args) GetPolicy := by
  unfold getDispatch
  apply triple_bind (triple_subscript _ _ _)
  intro a0
  split
  · apply triple_bind (triple_subscript _ _ _)
    intro a1
    apply triple_bind (triple_subscript _ _ _)
    intro a2
    apply triple_bind
      (triple_tryCatch triple_readFileDescriptor (fun _ _ h => h.1)
        (fun e h => triple_disconnectAndRethrow e h.2))
    intro stream
    exact triple_pure _ _
  · split
    · apply triple_bind (triple_subscript _ _ _)
      intro a2
      split
      · apply triple_bind
          (triple_tryCatch triple_readScalar (fun _ _ h => h.1)
            (fun e h => triple_disconnectAndRethrow e h.2))
        intro result
        cases result with
        | none => exact triple_raise _ _ (fun h => absurd rfl h)
        | some errorPage =>
          dsimp only
          apply triple_bind (triple_subscript _ _ _)
          intro a1
          exact triple_raise _ _ (getPolicy_reported _ rfl)
      · apply triple_bind (triple_subscript _ _ _)
        intro a1
        exact triple_raise _ _ (getPolicy_reported _ rfl)
    · split
      · apply triple_bind (triple_subscript _ _ _)
        intro a1
        exact triple_raise _ _ (getPolicy_reported _ rfl)
      · split
        · exact triple_disconnect_subscript_raise args
        · exact triple_disconnect_raise _ _ (getPolicy_closed _ rfl)

theorem triple_getBody (options : PoolOptions) : Triple (getBody options) GetPolicy := by
  intro ch hfd
  have h : Triple (do
      tryCatch (write ("get" :: options.toVector)) getWriteHandler
      let _ ← tryCatch checkSecurityResponse getSecurityHandler
      let args ← getReply options (ch.incoming.length + 1)
      getDispatch args) GetPolicy := by
    apply triple_bind
      (triple_tryCatch (triple_write _) (fun _ _ h => h.1)
        (fun e h => triple_getWriteHandler e h.2))
    intro _
    apply triple_bind
      (triple_tryCatch triple_checkSecurityResponse (fun _ _ h => h.1)
        (fun e h => triple_getSecurityHandler e h.2))
    intro _
    apply triple_bind (triple_getReply options _)
    intro args
    exact triple_getDispatch args
  exact h ch hfd

/-- The body of `getActive`, `getCount` and `getSpawnServerPid`; `f` is the
conversion to the return type. -/
theorem triple_query {β : Type} (args : List String) (f : Int → β) :
    Triple (do write args
               let _ ← checkSecurityResponse
               let n ← readNumber
               pure (f n) : ChannelM β) StaysConnected := by
  apply triple_bind (triple_write_connected args)
  intro _
  apply triple_bind triple_checkSecurityResponse_connected
  intro _
  apply triple_bind triple_readNumber
  intro n
  exact triple_pure _ _

/-! ### C3: the connection-close policy -/

/-- C3, as amended: when a command method of a connected client fails, then
for `clear`, `setMaxIdleTime`, `setMax`, `setMaxPerApp`, `getActive`,
`getCount` and `getSpawnServerPid` the channel is still connected afterwards if
and only if the failure is a `SecurityException`; for `get` it is still
connected if and only if the failure is a `SecurityException`, a
`SpawnException` or a `BusyException`, the `IOException` for a connection that
ends where the error page should be being left aside. Every other failure
(`IOException`, `SystemException`, timeout, interruption, unexpected end of
stream in `get`, unknown reply) leaves the channel disconnected. -/
theorem close_policy (c : Client) (hconn : c.isConnected = true) :
    (∀ e, c.clear.1 = Outcome.throws e →
        (c.clear.2.isConnected = true ↔ e.isSecurity = true))
      ∧ (∀ seconds e, (c.setMaxIdleTime seconds).1 = Outcome.throws e →
          ((c.setMaxIdleTime seconds).2.isConnected = true ↔ e.isSecurity = true))
      ∧ (∀ max e, (c.setMax max).1 = Outcome.throws e →
          ((c.setMax max).2.isConnected = true ↔ e.isSecurity = true))
      ∧ (∀ max e, (c.setMaxPerApp max).1 = Outcome.throws e →
          ((c.setMaxPerApp max).2.isConnected = true ↔ e.isSecurity = true))
      ∧ (∀ e, c.getActive.1 = Outcome.throws e →
          (c.getActive.2.isConnected = true ↔ e.isSecurity = true))
      ∧ (∀ e, c.getCount.1 = Outcome.throws e →
          (c.getCount.2.isConnected = true ↔ e.isSecurity = true))
      ∧ (∀ e, c.getSpawnServerPid.1 = Outcome.throws e →
          (c.getSpawnServerPid.2.isConnected = true ↔ e.isSecurity = true))
      ∧ (∀ options e, (c.get options).1 = Outcome.throws e →
          e ≠ Exception.IOException errorPageEofMessage →
          ((c.get options).2.isConnected = true ↔ e.isReported = true)) := by
  refine ⟨?_, ?_, ?_, ?_, ?_, ?_, ?_, ?_⟩
  · intro e h
    exact call_policy c _ SecurityPolicy (triple_guarded _ (triple_command _)) hconn e h
  · intro seconds e h
    exact call_policy c _ SecurityPolicy (triple_guarded _ (triple_command _)) hconn e h
  · intro max e h
    exact call_policy c _ SecurityPolicy (triple_guarded _ (triple_command _)) hconn e h
  · intro max e h
    exact call_policy c _ SecurityPolicy (triple_guarded _ (triple_command _)) hconn e h
  · intro e h
    exact call_policy c _ SecurityPolicy (triple_guarded _ (triple_query _ toUnsigned)) hconn e h
  · intro e h
    exact call_policy c _ SecurityPolicy (triple_guarded _ (triple_query _ toUnsigned)) hconn e h
  · intro e h
    exact call_policy c _ SecurityPolicy (triple_guarded _ (triple_query _ (fun n => n)))
      hconn e h
  · intro options e h hne
    exact call_policy c _ GetPolicy (triple_getBody options) hconn e h hne

/-- Witness of `close_policy`: a refused `clear` throws a `SecurityException`
and leaves the client connected. -/
theorem close_policy_witness :
    refusedClient.isConnected = true
      ∧ refusedClient.clear.1
          = Outcome.throws (Exception.SecurityException "not allowed")
      ∧ (refusedClient.clear.2.isConnected = true
          ↔ (Exception.SecurityException "not allowed").isSecurity = true) :=
  ⟨by decide, by decide,
    (close_policy refusedClient (by decide)).1
      (Exception.SecurityException "not allowed") (by decide)⟩

/-- C3 as stated fails for `get`: a `get` answered with `BusyException busy`
fails with a `BusyException`, and one answered with
`SpawnException boom false` fails with a `SpawnException`; neither is a
`SecurityException`, and after both the channel is still connected. -/
theorem close_policy_get_counterexample :
    busyClient.isConnected = true
      ∧ (busyClient.get s1Options).1 = Outcome.throws (Exception.BusyException "busy")
      ∧ (busyClient.get s1Options).2.isConnected = true
      ∧ (Exception.BusyException "busy").isSecurity = false
      ∧ spawnFailureClient.isConnected = true
      ∧ (spawnFailureClient.get s1Options).1
          = Outcome.throws (Exception.SpawnException "boom" none)
      ∧ (spawnFailureClient.get s1Options).2.isConnected = true
      ∧ (Exception.SpawnException "boom" none).isSecurity = false := by
  decide

/-! ### C4: authentication failure -/

/-- C4, as amended: when the server answers the username and password scalars
with a vector of one field `reason` other than `ok`, `authenticate` and
`connect` fail with a `SecurityException` that carries the reason; when it
answers with the two-field vector `["SecurityException", reason]`, they fail
with the `IOException` for an invalid authentication response. -/
theorem authentication_failure (fd : Int) (username password reason : String)
    (rest : List Incoming) (hfd : fd ≠ -1) (hreason : reason ≠ "ok") :
    (authenticate username password
          (MessageChannel.fresh fd (Incoming.message [reason] :: rest))).1
        = Outcome.throws (Exception.SecurityException
            ("The ApplicationPool server denied authentication: " ++ reason))
      ∧ (Client.connect { data := none }
          (Except.ok (MessageChannel.fresh fd (Incoming.message [reason] :: rest)))
          username password).1
        = Outcome.throws (Exception.SecurityException
            ("The ApplicationPool server denied authentication: " ++ reason))
      ∧ (authenticate username password
          (MessageChannel.fresh fd
            (Incoming.message ["SecurityException", reason] :: rest))).1
        = Outcome.throws (Exception.IOException
            "The authentication response that the ApplicationPool server sent is not valid.")
      ∧ (Client.connect { data := none }
          (Except.ok (MessageChannel.fresh fd
            (Incoming.message ["SecurityException", reason] :: rest)))
          username password).1
        = Outcome.throws (Exception.IOException
            "The authentication response that the ApplicationPool server sent is not valid.") := by
  have h1 : (authenticate username password
        (MessageChannel.fresh fd (Incoming.message [reason] :: rest))).1
      = Outcome.throws (Exception.SecurityException
          ("The ApplicationPool server denied authentication: " ++ reason)) := by
    simp [authenticate, sendUsername, sendPassword, writeScalar, MessageChannel.nextWrite,
      MessageChannel.fresh, hfd, bind_apply, ChannelM.bind, read, subscript, raise,
      hreason, pure_apply]
  have h2 : (authenticate username password
        (MessageChannel.fresh fd
          (Incoming.message ["SecurityException", reason] :: rest))).1
      = Outcome.throws (Exception.IOException
          "The authentication response that the ApplicationPool server sent is not valid.") := by
    simp [authenticate, sendUsername, sendPassword, writeScalar, MessageChannel.nextWrite,
      MessageChannel.fresh, hfd, bind_apply, ChannelM.bind, read, raise]
  exact ⟨h1, h1, h2, h2⟩

/-- Witness of `authentication_failure`: scenario S5, the reply `denied`. -/
theorem authentication_failure_witness :
    (3 : Int) ≠ -1 ∧ "denied" ≠ "ok"
      ∧ (Client.connect { data := none }
          (Except.ok (MessageChannel.fresh 3 [Incoming.message ["denied"]])) "user" "wrong").1
        = Outcome.throws (Exception.SecurityException
            ("The ApplicationPool server denied authentication: " ++ "denied")) :=
  ⟨by decide, by decide,
    (authentication_failure 3 "user" "wrong" "denied" [] (by decide) (by decide)).2.1⟩

/-- C4 as stated fails: against a server that answers the authentication with
the vector `["SecurityException", "denied"]`, `authenticate` and `connect` fail
with an `IOException`, which is not a `SecurityException`. -/
theorem authentication_failure_counterexample :
    (authenticate "user" "wrong" denyingServer).1
        = Outcome.throws (Exception.IOException
            "The authentication response that the ApplicationPool server sent is not valid.")
      ∧ (Client.connect { data := none } (Except.ok denyingServer) "user" "wrong").1
        = Outcome.throws (Exception.IOException
            "The authentication response that the ApplicationPool server sent is not valid.")
      ∧ (Exception.IOException
            "The authentication response that the ApplicationPool server sent is not valid.").isSecurity
          = false := by
  decide

/-! ### C5: the reply of `clear` -/

/-- C5, as amended: `clear` reads exactly one message, the security envelope:
against a server that answers `clear` with `["Passed security"]`, `clear`
returns after one write and one read and leaves on the channel whatever follows
the envelope, so that when nothing else was sent for `clear` the first message
read by the next command is that command's own envelope; `clear()` followed by
`getCount()` answered with `["Passed security"]`, `[n]` returns `n`. -/
theorem clear_reads_envelope (fd : Int) (rest : List Incoming) (n : String) (hfd : fd ≠ -1) :
    Client.clear
        { data := some (MessageChannel.fresh fd (Incoming.message ["Passed security"] :: rest)) }
        = (Outcome.returns (),
            { data := some { fd := fd, incoming := rest, writeFaults := [],
                             trace := [Op.write ["clear"], Op.read] } })
      ∧ (Client.getCount
          (Client.clear
            { data := some (MessageChannel.fresh fd
                [Incoming.message ["Passed security"], Incoming.message ["Passed security"],
                 Incoming.message [n]]) }).2).1
        = Outcome.returns (toUnsigned (atoi n)) := by
  have hc : ∀ rest : List Incoming,
      Client.clear
        { data := some (MessageChannel.fresh fd (Incoming.message ["Passed security"] :: rest)) }
        = (Outcome.returns (),
            { data := some { fd := fd, incoming := rest, writeFaults := [],
                             trace := [Op.write ["clear"], Op.read] } }) := by
    intro rest
    rw [Client.clear, call_connected _ _ _ rfl (by simpa [MessageChannel.fresh] using hfd)]
    simp [tryCatch, write, MessageChannel.nextWrite, MessageChannel.fresh, hfd, bind_apply,
      ChannelM.bind, checkSecurityResponse, read, subscript, pure_apply]
  refine ⟨hc rest, ?_⟩
  rw [hc]
  rw [Client.getCount, call_connected _ _ _ rfl (by simpa using hfd)]
  simp [tryCatch, write, MessageChannel.nextWrite, hfd, bind_apply,
    ChannelM.bind, checkSecurityResponse, read, subscript, pure_apply, readNumber]

/-- Witness of `clear_reads_envelope`: the count `3` on descriptor 3. -/
theorem clear_reads_envelope_witness :
    (3 : Int) ≠ -1
      ∧ (Client.getCount
          (Client.clear
            { data := some (MessageChannel.fresh 3
                [Incoming.message ["Passed security"], Incoming.message ["Passed security"],
                 Incoming.message ["3"]]) }).2).1
        = Outcome.returns (toUnsigned (atoi "3")) :=
  ⟨by decide, (clear_reads_envelope 3 [] "3" (by decide)).2⟩

/-- C5 as stated fails: against a server that answers `clear` with
`["Passed security"]` and `["ok"]`, `clear` returns after a single read and
leaves `["ok"]` on the channel; the following `getCount`, answered with
`["Passed security"]`, `["3"]`, reads `["ok"]` as its security envelope, fails
with an `IOException` and disconnects. -/
theorem clear_reads_envelope_counterexample :
    clearOkClient.clear.1 = Outcome.returns ()
      ∧ clearOkClient.clear.2.data.map MessageChannel.incoming
          = some [Incoming.message ["ok"], Incoming.message ["Passed security"],
                  Incoming.message ["3"]]
      ∧ clearOkClient.clear.2.data.map MessageChannel.trace
          = some [Op.write ["clear"], Op.read]
      ∧ (Client.getCount clearOkClient.clear.2).1
          = Outcome.throws (Exception.IOException "Invalid security response 'ok'")
      ∧ (Client.getCount clearOkClient.clear.2).2.isConnected = false := by
  decide

/-! ### C6: dropping a session -/

/-- C6 at failing inputs: the destructor of a session with an open stream
propagates a `SystemException` when `close(2)` fails (and then never writes the
`close` notification), when the shared channel is already disconnected, and
when the write of the notification fails; and it propagates
`boost::thread_interrupted` when `syscalls::close` is interrupted. -/
theorem session_destructor_raises :
    (openSession.destructor (CloseResult.failure EIO) [] (MessageChannel.fresh 3 [])).1
        = Outcome.throws
            (Exception.SystemException "A write operation on the session stream failed" EIO)
      ∧ (openSession.destructor (CloseResult.failure EIO) []
          (MessageChannel.fresh 3 [])).2.2.2.trace = []
      ∧ (openSession.destructor CloseResult.success [] closedChannel).1
        = Outcome.throws (Exception.SystemException "write() failed" EBADF)
      ∧ (openSession.destructor CloseResult.success [] brokenChannel).1
        = Outcome.throws (Exception.SystemException "write() failed" 32)
      ∧ (openSession.destructor CloseResult.interrupted [] (MessageChannel.fresh 3 [])).1
        = Outcome.throws Exception.thread_interrupted := by
  decide

/-! ### C7: `closeStream` and `discardStream` -/

/-- C7 at a failing input: a `closeStream` on the open session (descriptor 12)
whose `syscalls::close` is interrupted throws `boost::thread_interrupted`
after `close(2)` has been called and before `fd = -1`, so `getStream()` is
still 12; the `closeStream` that follows is not a no-op: it calls `close(2)`
on descriptor 12 again, and over the two calls the descriptor is closed
twice. -/
theorem closeStream_interrupted_closes_twice :
    openSession.getStream = 12
      ∧ openSession.closeStream CloseResult.interrupted []
          = (Outcome.throws Exception.thread_interrupted, openSession, [12])
      ∧ (openSession.closeStream CloseResult.interrupted []).2.1.getStream = 12
      ∧ (openSession.closeStream CloseResult.interrupted []).2.1.closeStream
            CloseResult.success (openSession.closeStream CloseResult.interrupted []).2.2
          = (Outcome.returns (), { pid := 100, id := 7, fd := -1 }, [12, 12])
      ∧ (openSession.calls []
          [StreamCall.closeStream CloseResult.interrupted,
           StreamCall.closeStream CloseResult.success]).2 = [12, 12] := by
  decide

theorem call_fd (s : RemoteSession) (closed : List Int) (c : StreamCall)
    (hc : c.isInterrupted = false) : (s.call closed c).2.1.fd = -1 := by
  cases c with
  | discardStream => rfl
  | closeStream result =>
    simp only [RemoteSession.call, RemoteSession.closeStream]
    by_cases h : s.fd = -1
    · simp [h]
    · cases result with
      | success => simp [h]
      | failure errno => by_cases he : errno = EIO <;> simp [h, he]
      | interrupted => simp [StreamCall.isInterrupted] at hc

theorem call_closed_session (s : RemoteSession) (closed : List Int) (c : StreamCall)
    (h : s.fd = -1) : s.call closed c = (Outcome.returns (), s, closed) := by
  cases c with
  | discardStream =>
    cases s
    simp only at h
    simp [RemoteSession.call, RemoteSession.discardStream, h]
  | closeStream result => simp [RemoteSession.call, RemoteSession.closeStream, h]

theorem calls_closed_session (s : RemoteSession) (closed : List Int)
    (calls : List StreamCall) (h : s.fd = -1) : s.calls closed calls = (s, closed) := by
  induction calls with
  | nil => rfl
  | cons c rest ih =>
    simp only [RemoteSession.calls, call_closed_session s closed c h]
    exact ih

theorem call_log (s : RemoteSession) (closed : List Int) (c : StreamCall) :
    (s.call closed c).2.2 = closed ∨ (s.fd ≠ -1 ∧ (s.call closed c).2.2 = closed ++ [s.fd]) := by
  cases c with
  | discardStream => exact Or.inl rfl
  | closeStream result =>
    simp only [RemoteSession.call, RemoteSession.closeStream]
    by_cases h : s.fd = -1
    · simp [h]
    · cases result with
      | success => simp [h]
      | failure errno => by_cases he : errno = EIO <;> simp [h, he]
      | interrupted => simp [h]

theorem calls_log (s : RemoteSession) (calls : List StreamCall)
    (hc : ∀ c ∈ calls, c.isInterrupted = false) :
    ∀ closed : List Int, (s.calls closed calls).2 = closed
      ∨ (s.fd ≠ -1 ∧ (s.calls closed calls).2 = closed ++ [s.fd]) := by
  cases calls with
  | nil => intro closed; exact Or.inl rfl
  | cons c rest =>
    intro closed
    simp only [RemoteSession.calls]
    rw [calls_closed_session _ _ rest (call_fd s closed c (hc c (List.mem_cons_self _ _)))]
    exact call_log s closed c

theorem calls_append (s : RemoteSession) (xs ys : List StreamCall) :
    ∀ closed : List Int, s.calls closed (xs ++ ys)
      = (s.calls closed xs).1.calls (s.calls closed xs).2 ys := by
  induction xs generalizing s with
  | nil => intro closed; rfl
  | cons c rest ih =>
    intro closed
    simp only [List.cons_append, RemoteSession.calls]
    exact ih _ _

theorem calls_cons (s : RemoteSession) (closed : List Int) (first : StreamCall)
    (more : List StreamCall) (hc : first.isInterrupted = false) :
    s.calls closed (first :: more) = ((s.call closed first).2.1, (s.call closed first).2.2) := by
  simp only [RemoteSession.calls]
  exact calls_closed_session _ _ more (call_fd s closed first hc)

/-- Apart from interruption, `closeStream` is idempotent and respects
`discardStream`: after any calls that start with a `discardStream` or with a
`closeStream` whose `syscalls::close` returned (with or without an error), a
`closeStream` calls `close(2)` on no descriptor, raises nothing and leaves
`getStream() == -1`; over any sequence of calls none of which is interrupted at
most one `close(2)` is made, on the descriptor of the session; and no
`close(2)` is made by or after a `discardStream`, interruptions or not. -/
theorem closeStream_idempotent_uninterrupted (s : RemoteSession) (closed : List Int)
    (first : StreamCall) (result : CloseResult) (more calls before after : List StreamCall)
    (hfirst : first.isInterrupted = false) (hcalls : ∀ c ∈ calls, c.isInterrupted = false) :
    ((s.calls closed (first :: more)).1.closeStream result
          (s.calls closed (first :: more)).2
        = (Outcome.returns (), (s.calls closed (first :: more)).1,
            (s.calls closed (first :: more)).2)
      ∧ (s.calls closed (first :: more)).1.getStream = -1)
      ∧ ((s.calls closed calls).2 = closed ∨ (s.calls closed calls).2 = closed ++ [s.fd])
      ∧ (s.calls closed (before ++ [StreamCall.discardStream] ++ after)).2
          = (s.calls closed before).2
      ∧ (s.discardStream.calls closed calls).2 = closed := by
  refine ⟨?_, ?_, ?_, ?_⟩
  · rw [calls_cons _ _ _ _ hfirst]
    exact ⟨by simp [RemoteSession.closeStream, call_fd s closed first hfirst],
      call_fd s closed first hfirst⟩
  · rcases calls_log s calls hcalls closed with h | h
    · exact Or.inl h
    · exact Or.inr h.2
  · rw [List.append_assoc, calls_append, List.singleton_append, RemoteSession.calls,
      calls_closed_session _ _ after (call_fd _ _ StreamCall.discardStream rfl)]
    rfl
  · rw [calls_closed_session _ _ calls rfl]

/-! ### `get` ends within the recursion bound of the model -/

/-- The C library functions on some numerals: `\v` and `\f` are skipped like
the other blanks, `atol` is bounded by `long`, `atoi` and the cast to `pid_t`
cut to 32 bits. -/
theorem atoi_values :
    atoi " \t\n\x0b\x0c\r42" = 42
      ∧ atoi "-7x" = -7
      ∧ atoi "+15" = 15
      ∧ atoi "x" = 0
      ∧ atoi "2147483647" = 2147483647
      ∧ atoi "2147483648" = -2147483648
      ∧ atoi "4294967297" = 1
      ∧ atol "4294967297" = 4294967297
      ∧ atol "99999999999999999999" = 9223372036854775807
      ∧ atol "-99999999999999999999" = -9223372036854775808
      ∧ toInt32 (atol "4294967297") = 1
      ∧ toUnsigned (atoi "-1") = 4294967295 := by
  decide

end ApplicationPool

end Passenger
